import Mathlib

/-!
Verification development for the conversation-title synchronization engine of the
openclaw repository.  The definitions below are shallow embeddings of the TypeScript
sources:

  * src/channels/conversation-title.ts   (deterministic title extractor)
  * src/channels/thread-title.ts         (generic apply-title engine, in-memory store)
  * src/channels/thread-title-manager.ts (session-store rename manager)
  * src/channels/thread-title-llm.ts     (LLM title generator and settings)

JavaScript strings are modelled as Lean `String`, numbers as `Int`/`Nat`,
`undefined`-able values as `Option`, and thrown exceptions as `Except`.
-/

/-! ## JavaScript string primitives -/

/-- Whitespace as matched by the JavaScript regex class `\s` (ASCII part). -/
def jsWs (c : Char) : Bool :=
  c = ' ' || c = '\t' || c = '\n' || c = '\r' || c = Char.ofNat 11 || c = Char.ofNat 12

def trimChars (cs : List Char) : List Char :=
  ((cs.dropWhile jsWs).reverse.dropWhile jsWs).reverse

/-- `String.prototype.trim`. -/
def jsTrim (s : String) : String := ⟨trimChars s.data⟩

/-- `String.prototype.toLowerCase` (ASCII). -/
def jsToLower (s : String) : String := ⟨s.data.map Char.toLower⟩

/-- One pass of `.replace(/\s+/g, " ")`: every maximal whitespace run becomes one space. -/
def collapseWsAux : Bool → List Char → List Char
  | _, [] => []
  | prevWs, c :: cs =>
    if jsWs c then
      if prevWs then collapseWsAux true cs else ' ' :: collapseWsAux true cs
    else c :: collapseWsAux false cs

def collapseWs (cs : List Char) : List Char := collapseWsAux false cs

/-- Split a list at the first occurrence of the delimiter, returning the part before it
and the part after it; `none` when the delimiter does not occur. -/
def splitAtChar (d : Char) : List Char → Option (List Char × List Char)
  | [] => none
  | c :: cs =>
    if c = d then some ([], cs)
    else (splitAtChar d cs).map (fun p => (c :: p.1, p.2))

def startsWithCh : List Char → List Char → Bool
  | [], _ => true
  | _ :: _, [] => false
  | a :: as, b :: bs => a = b && startsWithCh as bs

/-- Case-insensitive version of `startsWithCh` (needle given already lowercased). -/
def startsWithChCI (needle hay : List Char) : Bool :=
  startsWithCh needle (hay.map Char.toLower)

def hasSeq : List Char → List Char → Bool
  | [], needle => needle.isEmpty
  | c :: cs, needle => startsWithCh needle (c :: cs) || hasSeq cs needle

/-- `String.prototype.includes`. -/
def jsIncludes (s : String) (needle : String) : Bool := hasSeq s.data needle.data

/-! ## conversation-title.ts — deterministic extractor -/

/-- `.replace(/<@[^>]+>/g, " ")`: user-mention tokens become a single space. -/
def stripMentionsGo : Nat → List Char → List Char
  | 0, cs => cs
  | _ + 1, [] => []
  | fuel + 1, '<' :: '@' :: rest =>
    match splitAtChar '>' rest with
    | some (mid, tail) =>
      if mid.isEmpty then '<' :: stripMentionsGo fuel ('@' :: rest)
      else ' ' :: stripMentionsGo fuel tail
    | none => '<' :: stripMentionsGo fuel ('@' :: rest)
  | fuel + 1, c :: cs => c :: stripMentionsGo fuel cs

def stripMentions (cs : List Char) : List Char := stripMentionsGo cs.length cs

/-- `.replace(/\[[^\]]*message id:[^\]]*\]/gi, " ")`. -/
def stripMsgIdsGo : Nat → List Char → List Char
  | 0, cs => cs
  | _ + 1, [] => []
  | fuel + 1, '[' :: rest =>
    match splitAtChar ']' rest with
    | some (mid, tail) =>
      if hasSeq (mid.map Char.toLower) "message id:".data then
        ' ' :: stripMsgIdsGo fuel tail
      else '[' :: stripMsgIdsGo fuel rest
    | none => '[' :: stripMsgIdsGo fuel rest
  | fuel + 1, c :: cs => c :: stripMsgIdsGo fuel cs

def stripMsgIds (cs : List Char) : List Char := stripMsgIdsGo cs.length cs

/-- `SLASH_COMMAND_RE = /^\/[a-z0-9_]+(?:\s|$)/i`. -/
def isSlashCommand (s : String) : Bool :=
  match s.data with
  | '/' :: rest =>
    let run := rest.takeWhile (fun c => c.isAlpha || c.isDigit || c = '_')
    let after := rest.drop run.length
    !run.isEmpty && (after.isEmpty || jsWs (after.headD ' '))
  | _ => false

/-- `LOW_SIGNAL_RE = /^(?:hi|hello|hey|yo|ok|okay|test|ping)$/i`. -/
def isLowSignal (s : String) : Bool :=
  ["hi", "hello", "hey", "yo", "ok", "okay", "test", "ping"].contains (jsToLower s)

/-- `.replace(/^slack thread\s+/i, "")`. -/
def stripSlackThreadLead (cs : List Char) : List Char :=
  if startsWithChCI "slack thread".data cs then
    let rest := cs.drop 12
    match rest with
    | c :: _ => if jsWs c then rest.dropWhile jsWs else cs
    | [] => cs
  else cs

/-- `.replace(/^[\s\-:;,.!?]+/, "")` followed by `.trim()`. -/
def dropLeadJunk (cs : List Char) : List Char :=
  trimChars (cs.dropWhile (fun c => jsWs c || [ '-', ':', ';', ',', '.', '!', '?' ].contains c))

/-- `stripTrailingPunctuation`: `.replace(/[;:,.!?]+$/, "").trim()`. -/
def stripTrailingPunctuation (s : String) : String :=
  ⟨trimChars ((s.data.reverse.dropWhile
      (fun c => [ ';', ':', ',', '.', '!', '?' ].contains c)).reverse)⟩

/-- Tail of `STICKER_PLACEHOLDER_RE`: `(?:\s+.*)?$` where `.` does not match line breaks. -/
def stickerTailOk (tail : List Char) : Bool :=
  match tail with
  | [] => true
  | c :: _ =>
    jsWs c && ((tail.dropWhile jsWs).all (fun d => d ≠ '\n' && d ≠ '\r'))

/-- `STICKER_PLACEHOLDER_RE = /^\[Sticker(?: [^\]]+)?\](?:\s+.*)?$/i`. -/
def isStickerPlaceholder (cs : List Char) : Bool :=
  if startsWithChCI "[sticker".data cs then
    match cs.drop 8 with
    | ']' :: tail => stickerTailOk tail
    | ' ' :: more =>
      match splitAtChar ']' more with
      | some (mid, tail) => !mid.isEmpty && stickerTailOk tail
      | none => false
    | _ => false
  else false

/-- Try `MEDIA_PLACEHOLDER_TOKEN_RE = /<media:[^>]+>(?:\s*\([^)]*\))?/gi` at the head of the
input; on success return the remainder after the match. -/
def matchMediaToken (cs : List Char) : Option (List Char) :=
  match cs with
  | '<' :: rest =>
    if startsWithChCI "media:".data rest then
      match splitAtChar '>' (rest.drop 6) with
      | some (mid, tail) =>
        if mid.isEmpty then none
        else
          let afterWs := tail.dropWhile jsWs
          match afterWs with
          | '(' :: r2 =>
            match splitAtChar ')' r2 with
            | some (_, tail2) => some tail2
            | none => some tail
          | _ => some tail
      | none => none
    else none
  | _ => none

/-- Try `SLACK_MEDIA_PLACEHOLDER_TOKEN_RE = /\[(?:Slack file|Forwarded image|attached)(?::\s*[^\]]+)?\]/gi`
at the head of the input; on success return the remainder after the match. -/
def matchSlackMediaToken (cs : List Char) : Option (List Char) :=
  match cs with
  | '[' :: rest =>
    let tryKw : List Char → Option (List Char) := fun kw =>
      if startsWithChCI kw rest then some (rest.drop kw.length) else none
    match (tryKw "slack file".data).orElse
        (fun _ => (tryKw "forwarded image".data).orElse
          (fun _ => tryKw "attached".data)) with
    | some afterKw =>
      match afterKw with
      | ']' :: tail => some tail
      | ':' :: r2 =>
        match splitAtChar ']' r2 with
        | some (mid, tail) => if mid.isEmpty then none else some tail
        | none => none
      | _ => none
    | none => none
  | _ => none

def replaceTokensGo (tryTok : List Char → Option (List Char)) :
    Nat → List Char → List Char
  | 0, cs => cs
  | _ + 1, [] => []
  | fuel + 1, c :: cs =>
    match tryTok (c :: cs) with
    | some rest => ' ' :: replaceTokensGo tryTok fuel rest
    | none => c :: replaceTokensGo tryTok fuel cs

def replaceTokens (tryTok : List Char → Option (List Char)) (cs : List Char) : List Char :=
  replaceTokensGo tryTok cs.length cs

/-- `stripMediaPlaceholderTokens` from conversation-title.ts. -/
def stripMediaPlaceholderTokens (s : String) : String :=
  let trimmed := trimChars s.data
  if trimmed.isEmpty then ""
  else if isStickerPlaceholder trimmed then ""
  else
    ⟨trimChars (collapseWs (replaceTokens matchSlackMediaToken
        (replaceTokens matchMediaToken trimmed)))⟩

/-- Modelled from the spec: `isControlCommandMessage` lives in
src/auto-reply/command-detection.ts, which is not among the sources in view.  Spec §4.1
rejects a candidate that matches "a recognized control-command phrase"; the repository's
extractor test exercises "stop" as such a phrase.  We model the recognizer as membership
of the trimmed, lowercased text in the recognized-phrase set. -/
def isControlCommandMessage (s : String) : Bool :=
  ["stop"].contains (jsToLower (jsTrim s))

/-- Steps of `deriveConversationTitle` up to (and including) the whitespace-normalization
and prefix-stripping replacements: mention and message-id tokens become spaces, whitespace
is collapsed, a leading "slack thread" and leading separator junk are removed. -/
def preCleanTitle (s : String) : String :=
  ⟨dropLeadJunk (stripSlackThreadLead (trimChars (collapseWs (stripMsgIds (stripMentions s.data)))))⟩

/-- The per-candidate pipeline of `deriveConversationTitle`, before the `maxChars`
truncation (all of these steps are independent of `maxChars`). -/
def titleCandidateCore (s : String) : Option String :=
  if jsTrim s = "" then none
  else
    let title : String := ⟨trimChars (collapseWs (stripMsgIds (stripMentions s.data)))⟩
    if title = "" then none
    else if isSlashCommand title then none
    else
      let title := preCleanTitle s
      if title = "" || isLowSignal title then none
      else
        let title := stripTrailingPunctuation (stripMediaPlaceholderTokens title)
        if title = "" || isControlCommandMessage title then none
        else some title

/-- The tail of the per-candidate pipeline: truncation to `maxChars`, trailing-punctuation
re-strip, and the minimum-length check. -/
def titleCandidateFinish (maxChars : Nat) (t : String) : Option String :=
  let t2 := if maxChars < t.length then jsTrim ⟨t.data.take maxChars⟩ else t
  let t3 := stripTrailingPunctuation t2
  if t3.length < 3 then none else some t3

def titleCandidate (maxChars : Nat) : Option String → Option String
  | none => none
  | some s => (titleCandidateCore s).bind (titleCandidateFinish maxChars)

/-- `deriveConversationTitle` from conversation-title.ts: try the primary then the
fallback text through the candidate pipeline. -/
def deriveConversationTitle (primaryText fallbackText : Option String) (maxChars : Nat) :
    Option String :=
  let mc := max 1 maxChars
  match titleCandidate mc primaryText with
  | some t => some t
  | none => titleCandidate mc fallbackText

def DEFAULT_THREAD_PLACEHOLDERS : List String :=
  ["new conversation", "new thread", "new chat", "untitled", "general", "no title"]

/-- `isDefaultThreadPlaceholder` from conversation-title.ts. -/
def isDefaultThreadPlaceholder (value : Option String) : Bool :=
  match value with
  | none => true
  | some v => if v = "" then true else DEFAULT_THREAD_PLACEHOLDERS.contains (jsToLower (jsTrim v))

/-! ## thread-title.ts — generic apply-title engine -/

/-- `ThreadTitleErrorClass`. -/
inductive TTErrorClass
  | permission
  | rate_limit
  | not_found
  | unknown
deriving DecidableEq, Repr

/-- The `status` field of `ThreadTitleState`. -/
inductive TTStatus
  | pending
  | applied
  | disabled
  | retry_after
deriving DecidableEq, Repr

/-- `ThreadTitleState` from thread-title.ts (also the shape of `NativeThreadTitleState`
in the session store). -/
structure ThreadTitleState where
  threadKey : String
  status : TTStatus
  attempts : Option Nat := none
  lastAttemptAt : Option Int := none
  appliedAt : Option Int := none
  appliedTitle : Option String := none
  lastProposedTitle : Option String := none
  retryAfter : Option Int := none
  lastErrorClass : Option TTErrorClass := none
deriving DecidableEq, Repr

/-- `ThreadTitleTarget`; a numeric `threadId` is represented by its decimal string
(the engine immediately applies `String(threadId)`). -/
structure ThreadTitleTarget where
  channel : String
  accountId : Option String := none
  conversationId : Option String := none
  threadId : Option String := none
  toAddr : Option String := none
deriving DecidableEq, Repr

/-- Opaque JavaScript error values (only passed to `classifyError`/`retryAfterMs`). -/
abbrev JsError := String

/-- The static shape of a `ThreadTitleProvider`: its channel name, which optional
capabilities are present, and the pure classification hooks. -/
structure Provider where
  channel : String
  resolveThreadKey : Option (ThreadTitleTarget → Option String) := none
  hasGetCurrentTitle : Bool := false
  classifyError : Option (JsError → TTErrorClass) := none
  retryAfterMs : Option (JsError → TTErrorClass → Option Int) := none

deriving instance DecidableEq for Except

/-- Outcomes of the provider's async calls for one engine invocation: what
`getCurrentTitle` and `setTitle` would return (or throw) if called. -/
structure ProviderEffects where
  getCurrentTitle : Except JsError (Option String) := .ok none
  setTitle : Except JsError Unit := .ok ()
deriving DecidableEq, Repr

/-- `ThreadTitleResult`. -/
structure ThreadTitleResult where
  outcome : String
  reason : String
  title : Option String := none
  threadKey : Option String := none
  errorClass : Option TTErrorClass := none
deriving DecidableEq, Repr

/-- The in-memory state store of `createInMemoryThreadTitleStateStore`: a JavaScript
`Map` (association list in insertion order) with an eviction cap. -/
structure InMemoryStore where
  maxEntries : Nat := 5000
  entries : List (String × ThreadTitleState) := []
deriving DecidableEq, Repr

/-- `Map.prototype.get`. -/
def storeGet (s : InMemoryStore) (k : String) : Option ThreadTitleState :=
  (s.entries.find? (fun e => e.1 = k)).map (fun e => e.2)

/-- The eviction loop of the store's `set`: `while (size > maxEntries)` delete the
oldest key, breaking when the oldest key is falsy (the empty string). -/
def evictOldest (maxEntries : Nat) : List (String × ThreadTitleState) →
    List (String × ThreadTitleState)
  | [] => []
  | (k, v) :: rest =>
    if maxEntries < ((k, v) :: rest).length then
      if k = "" then (k, v) :: rest
      else evictOldest maxEntries rest
    else (k, v) :: rest

/-- The store's `set`: delete the key, re-insert it at the end (most recent), evict. -/
def storeSet (s : InMemoryStore) (k : String) (v : ThreadTitleState) : InMemoryStore :=
  { s with entries := evictOldest s.maxEntries ((s.entries.filter (fun e => e.1 ≠ k)) ++ [(k, v)]) }

/-- `setStoreState`: write the state under its thread key unless the key is falsy. -/
def setStoreState (s : InMemoryStore) (state : ThreadTitleState) : InMemoryStore :=
  if state.threadKey = "" then s else storeSet s state.threadKey state

/-- `resolveDefaultThreadKey` from thread-title.ts. -/
def resolveDefaultThreadKey (target : ThreadTitleTarget) : Option String :=
  let channel := jsToLower (jsTrim target.channel)
  let conversationId :=
    match target.conversationId with
    | some c => jsTrim c
    | none => match target.toAddr with
      | some t => jsTrim t
      | none => ""
  let threadId := match target.threadId with
    | some t => jsTrim t
    | none => ""
  if channel = "" || conversationId = "" || threadId = "" then none
  else some (channel ++ ":" ++ conversationId ++ ":" ++ threadId)

/-- The engine's thread-key resolution: the provider's `resolveThreadKey` if present,
else the default; a falsy (empty) key counts as unresolved. -/
def resolvedThreadKey (prov : Provider) (target : ThreadTitleTarget) : Option String :=
  match (prov.resolveThreadKey.getD resolveDefaultThreadKey) target with
  | none => none
  | some tk => if tk = "" then none else some tk

/-- The engine's channel gate: `!(!channel || channel !== providerChannel)`. -/
def channelOk (prov : Provider) (target : ThreadTitleTarget) : Bool :=
  let channel := jsToLower (jsTrim target.channel)
  let providerChannel := jsToLower (jsTrim prov.channel)
  !(channel = "" || channel ≠ providerChannel)

/-- `existingState?.status === st`. -/
def statusIs (o : Option ThreadTitleState) (st : TTStatus) : Bool :=
  match o with
  | some s => s.status = st
  | none => false

/-- The cooldown gate: `status === "retry_after" && typeof retryAfter === "number"
&& retryAfter > now`. -/
def inCooldown (o : Option ThreadTitleState) (now : Int) : Bool :=
  match o with
  | some s => s.status = TTStatus.retry_after &&
      (match s.retryAfter with
       | some ra => now < ra
       | none => false)
  | none => false

/-- Arguments of `applyThreadTitle` (minus the provider, effects and store). -/
structure ApplyParams where
  target : ThreadTitleTarget
  primaryText : Option String := none
  fallbackText : Option String := none
  maxChars : Nat
  nowMs : Int
deriving Repr

/-- The observable outcome of one `applyThreadTitle` invocation: the returned result,
the state store afterwards, how often each provider call was invoked, and the sequence
of states written to the store. -/
structure ApplyOutcome where
  result : ThreadTitleResult
  store : InMemoryStore
  setTitleCalls : Nat
  getCurrentTitleCalls : Nat
  writes : List ThreadTitleState
deriving DecidableEq, Repr

/-- `provider.classifyError?.(error) ?? "unknown"`. -/
def classifyOf (prov : Provider) (e : JsError) : TTErrorClass :=
  (prov.classifyError.map (fun f => f e)).getD TTErrorClass.unknown

/-- `provider.retryAfterMs?.(error, errorClass) ?? (errorClass === "rate_limit" ? 60_000 : 15_000)`. -/
def retryMsOf (prov : Provider) (e : JsError) : Int :=
  (prov.retryAfterMs.bind (fun f => f e (classifyOf prov e))).getD
    (if classifyOf prov e = TTErrorClass.rate_limit then 60000 else 15000)

/-- The fresh `pending` record written before any external call. -/
def baseStateOf (existingState : Option ThreadTitleState) (threadKey title : String)
    (now : Int) : ThreadTitleState :=
  { threadKey := threadKey
    status := TTStatus.pending
    attempts := some ((existingState.bind (fun s => s.attempts)).getD 0 + 1)
    lastAttemptAt := some now
    lastProposedTitle := some title
    lastErrorClass := existingState.bind (fun s => s.lastErrorClass)
    appliedAt := existingState.bind (fun s => s.appliedAt)
    appliedTitle := existingState.bind (fun s => s.appliedTitle)
    retryAfter := existingState.bind (fun s => s.retryAfter) }

/-- The record written on `setTitle` success. -/
def appliedStateOf (base : ThreadTitleState) (title : String) (now : Int) :
    ThreadTitleState :=
  { base with
    status := TTStatus.applied
    appliedAt := some now
    appliedTitle := some title
    retryAfter := none
    lastErrorClass := none }

/-- The record written on a permission / not-found failure. -/
def failDisabledStateOf (base : ThreadTitleState) (ec : TTErrorClass) : ThreadTitleState :=
  { base with status := TTStatus.disabled, lastErrorClass := some ec }

/-- The record written on a retryable failure. -/
def failRetryStateOf (base : ThreadTitleState) (now : Int) (ec : TTErrorClass)
    (retryAfterMs : Int) : ThreadTitleState :=
  { base with
    status := TTStatus.retry_after
    retryAfter := some (now + max 1000 retryAfterMs)
    lastErrorClass := some ec }

/-- The record written when the current-title pre-check finds a real title. -/
def existingTitleStateOf (base : ThreadTitleState) (currentTitle : String) (now : Int) :
    ThreadTitleState :=
  { base with
    status := TTStatus.disabled
    appliedAt := some now
    appliedTitle := some currentTitle }

/-- The tail of `applyThreadTitle` from the `provider.setTitle` call onwards. -/
def applySetTitleStage (prov : Provider) (eff : ProviderEffects) (threadKey title : String)
    (now : Int) (baseState : ThreadTitleState) (store1 : InMemoryStore) (gct : Nat) :
    ApplyOutcome :=
  match eff.setTitle with
  | .ok _ =>
    { result := {
        outcome := "applied"
        reason := "applied"
        title := some title
        threadKey := some threadKey }
      store := setStoreState store1 (appliedStateOf baseState title now)
      setTitleCalls := 1
      getCurrentTitleCalls := gct
      writes := [baseState, appliedStateOf baseState title now] }
  | .error e =>
    let errorClass := classifyOf prov e
    let failedResult : ThreadTitleResult := {
      outcome := "failed"
      reason := "set_title_failed"
      title := some title
      threadKey := some threadKey
      errorClass := some errorClass }
    if errorClass = TTErrorClass.permission || errorClass = TTErrorClass.not_found then
      { result := failedResult
        store := setStoreState store1 (failDisabledStateOf baseState errorClass)
        setTitleCalls := 1
        getCurrentTitleCalls := gct
        writes := [baseState, failDisabledStateOf baseState errorClass] }
    else
      { result := failedResult
        store := setStoreState store1 (failRetryStateOf baseState now errorClass (retryMsOf prov e))
        setTitleCalls := 1
        getCurrentTitleCalls := gct
        writes := [baseState, failRetryStateOf baseState now errorClass (retryMsOf prov e)] }

/-- A skip outcome: the given result, the store unchanged, no provider calls, no writes. -/
def skipOutcome (r : ThreadTitleResult) (store : InMemoryStore) : ApplyOutcome :=
  { result := r
    store := store
    setTitleCalls := 0
    getCurrentTitleCalls := 0
    writes := [] }

/-- `applyThreadTitle` from thread-title.ts, as a pure function of the provider shape,
the outcomes its async calls would have, the call parameters and the state store. -/
def applyThreadTitle (prov : Provider) (eff : ProviderEffects) (p : ApplyParams)
    (store : InMemoryStore) : ApplyOutcome :=
  if !channelOk prov p.target then
    skipOutcome { outcome := "skipped", reason := "provider_mismatch" } store
  else
    match resolvedThreadKey prov p.target with
    | none =>
      skipOutcome { outcome := "skipped", reason := "unsupported_target" } store
    | some threadKey =>
      let now := p.nowMs
      let existingState := storeGet store threadKey
      if statusIs existingState TTStatus.disabled then
        skipOutcome { outcome := "skipped", reason := "disabled", threadKey := some threadKey }
          store
      else if inCooldown existingState now then
        skipOutcome { outcome := "skipped", reason := "cooldown", threadKey := some threadKey }
          store
      else if statusIs existingState TTStatus.applied then
        skipOutcome
          { outcome := "skipped", reason := "already_applied", threadKey := some threadKey }
          store
      else
        match deriveConversationTitle p.primaryText p.fallbackText p.maxChars with
        | none =>
          skipOutcome
            { outcome := "skipped", reason := "no_candidate", threadKey := some threadKey }
            store
        | some title =>
          let baseState := baseStateOf existingState threadKey title now
          let store1 := setStoreState store baseState
          if prov.hasGetCurrentTitle then
            match eff.getCurrentTitle with
            | .ok (some currentTitle) =>
              if currentTitle ≠ "" && !isDefaultThreadPlaceholder (some currentTitle) then
                { result := {
                    outcome := "skipped"
                    reason := "existing_title_present"
                    threadKey := some threadKey }
                  store := setStoreState store1 (existingTitleStateOf baseState currentTitle now)
                  setTitleCalls := 0
                  getCurrentTitleCalls := 1
                  writes := [baseState, existingTitleStateOf baseState currentTitle now] }
              else
                applySetTitleStage prov eff threadKey title now baseState store1 1
            | .ok none =>
              applySetTitleStage prov eff threadKey title now baseState store1 1
            | .error _ =>
              applySetTitleStage prov eff threadKey title now baseState store1 1
          else
            applySetTitleStage prov eff threadKey title now baseState store1 0

/-! ## thread-title-manager.ts — session-store rename manager -/

def RATE_LIMIT_RETRY_MS : Nat := 5 * 60000
def NOT_FOUND_RETRY_MS : Nat := 30 * 60000
def PENDING_LEASE_MS : Int := 60000

/-- `resolveRetryDelayMs` from thread-title-manager.ts.  `Math.max(0, attempts - 1)`
coincides with truncated subtraction on `Nat`. -/
def resolveRetryDelayMs (errorClass : TTErrorClass) (attempts : Nat) : Nat :=
  match errorClass with
  | TTErrorClass.permission => 0
  | TTErrorClass.rate_limit => RATE_LIMIT_RETRY_MS
  | TTErrorClass.not_found => NOT_FOUND_RETRY_MS
  | TTErrorClass.unknown => min (60000 * 2 ^ (attempts - 1)) (60 * 60000)

/-- The session-store record carrying the per-thread title state
(`entry.nativeThreadTitle`). -/
abbrev NativeThreadTitleState := ThreadTitleState

/-- Modelled from the spec: `updateSessionStoreEntry` (src/config/sessions.ts, not among
the sources in view) performs an atomic read-modify-write of one session entry (spec
§4.6); an updater returning null leaves the entry unchanged and the call yields no
updated record.  Result: (the record returned to the caller, the stored entry after
the call). -/
def updateSessionStoreEntry (entry : Option NativeThreadTitleState)
    (update : Option NativeThreadTitleState → Option NativeThreadTitleState) :
    Option NativeThreadTitleState × Option NativeThreadTitleState :=
  match update entry with
  | none => (none, entry)
  | some st => (some st, some st)

/-- `state.retryAfter && state.retryAfter > now` (a zero timestamp is falsy). -/
def retryAfterActive (st : NativeThreadTitleState) (now : Int) : Bool :=
  match st.retryAfter with
  | some ra => ra ≠ 0 && now < ra
  | none => false

/-- `state.lastAttemptAt && now - state.lastAttemptAt < PENDING_LEASE_MS`. -/
def pendingLeaseFresh (st : NativeThreadTitleState) (now : Int) : Bool :=
  match st.lastAttemptAt with
  | some la => la ≠ 0 && now - la < PENDING_LEASE_MS
  | none => false

/-- The update closure of `markRenameAttempt`: decide whether a new attempt may start
and, if so, produce the fresh `pending` record; `none` models the closure returning
null (no write). -/
def markRenameAttemptUpdate (state : Option NativeThreadTitleState)
    (threadKey title : String) (now : Int) : Option NativeThreadTitleState :=
  let blocked : Bool :=
    match state with
    | some st =>
      if st.threadKey = threadKey then
        if st.status = TTStatus.disabled then true
        else if st.status = TTStatus.applied then true
        else if retryAfterActive st now then
          let titleChanged := st.lastProposedTitle ≠ some title
          let canRetryEarly := st.status = TTStatus.retry_after &&
            st.lastErrorClass = some TTErrorClass.unknown && titleChanged
          if !canRetryEarly then true
          else st.status = TTStatus.pending && pendingLeaseFresh st now
        else st.status = TTStatus.pending && pendingLeaseFresh st now
      else false
    | none => false
  if blocked then none
  else
    let attempts : Nat :=
      match state with
      | some st => if st.threadKey = threadKey then st.attempts.getD 0 else 0
      | none => 0
    some {
      threadKey := threadKey
      status := TTStatus.pending
      attempts := some (attempts + 1)
      lastAttemptAt := some now
      lastProposedTitle := some title
      retryAfter := none
      appliedAt := none
      appliedTitle := none
      lastErrorClass := none }

/-- The value returned by `markRenameAttempt`. -/
structure RenameAttempt where
  shouldApply : Bool
  attempts : Nat
deriving DecidableEq, Repr

/-- `markRenameAttempt` from thread-title-manager.ts, at the level of the single
session entry it reads and writes.  Returns the attempt decision and the entry
afterwards. -/
def markRenameAttempt (sessionKey : Option String) (entry : Option NativeThreadTitleState)
    (threadKey title : String) (now : Int) :
    RenameAttempt × Option NativeThreadTitleState :=
  match sessionKey with
  | none => ({ shouldApply := true, attempts := 1 }, entry)
  | some _ =>
    let (updated, entryAfter) :=
      updateSessionStoreEntry entry (fun st => markRenameAttemptUpdate st threadKey title now)
    match updated with
    | none => ({ shouldApply := false, attempts := 0 }, entryAfter)
    | some st =>
      if st.threadKey = threadKey ∧ st.status = TTStatus.pending then
        ({ shouldApply := true, attempts := st.attempts.getD 1 }, entryAfter)
      else
        ({ shouldApply := false, attempts := st.attempts.getD 0 }, entryAfter)

/-- The update closure of `markRenameResult`: record the outcome of one `applyTitle`
call; `none` models the closure returning null (entry missing or for another thread). -/
def markRenameResultUpdate (state : Option NativeThreadTitleState)
    (threadKey title : String) (attempts : Nat) (errorClass : Option TTErrorClass)
    (now : Int) : Option NativeThreadTitleState :=
  match state with
  | none => none
  | some st =>
    if st.threadKey ≠ threadKey then none
    else
      match errorClass with
      | none =>
        some {
          threadKey := threadKey
          status := TTStatus.applied
          attempts := some attempts
          lastAttemptAt := some now
          appliedAt := some now
          appliedTitle := some title
          lastProposedTitle := some title }
      | some TTErrorClass.permission =>
        some { st with
          status := TTStatus.disabled
          attempts := some attempts
          lastAttemptAt := some now
          lastErrorClass := some TTErrorClass.permission }
      | some ec =>
        some { st with
          status := TTStatus.retry_after
          attempts := some attempts
          lastAttemptAt := some now
          lastErrorClass := some ec
          retryAfter := some (now + (resolveRetryDelayMs ec attempts : Nat)) }

/-- `markRenameResult` from thread-title-manager.ts, at the level of the single session
entry it reads and writes; returns the entry afterwards. -/
def markRenameResult (sessionKey : Option String) (entry : Option NativeThreadTitleState)
    (threadKey title : String) (attempts : Nat) (errorClass : Option TTErrorClass)
    (now : Int) : Option NativeThreadTitleState :=
  match sessionKey with
  | none => entry
  | some _ =>
    (updateSessionStoreEntry entry
      (fun st => markRenameResultUpdate st threadKey title attempts errorClass now)).2

/-! ## thread-title-llm.ts — settings and LLM title generator -/

inductive ThreadTitleStrategy
  | deterministic
  | llm
  | hybrid
deriving DecidableEq, Repr

/-- `normalizeStrategy`. -/
def normalizeStrategy (raw : Option String) : ThreadTitleStrategy :=
  let value := raw.map (fun r => jsToLower (jsTrim r))
  if value = some "llm" then ThreadTitleStrategy.llm
  else if value = some "hybrid" then ThreadTitleStrategy.hybrid
  else ThreadTitleStrategy.deterministic

/-- `normalizeThreadTitleModelRef`. -/
def normalizeThreadTitleModelRef (raw : Option String) : Option String :=
  match raw.map jsTrim with
  | none => none
  | some trimmed =>
    if trimmed = "" then none
    else if jsIncludes trimmed "/" then some trimmed
    else
      let lower := jsToLower trimmed
      if jsIncludes lower "gemini" then some ("google/" ++ trimmed)
      else if jsIncludes lower "claude" then some ("anthropic/" ++ trimmed)
      else some trimmed

/-- Split on `/\r?\n/`. -/
def splitLinesCh : List Char → List (List Char)
  | [] => [[]]
  | '\r' :: '\n' :: rest => [] :: splitLinesCh rest
  | '\n' :: rest => [] :: splitLinesCh rest
  | c :: rest =>
    match splitLinesCh rest with
    | [] => [[c]]
    | l :: ls => (c :: l) :: ls

def isQuoteChar (c : Char) : Bool :=
  c = '"' || c = Char.ofNat 39 || c = Char.ofNat 96

/-- `.replace(/^#+\s*/, "")`. -/
def dropLeadHashes (cs : List Char) : List Char :=
  match cs with
  | '#' :: _ => (cs.dropWhile (fun c => c = '#')).dropWhile jsWs
  | _ => cs

/-- `sanitizeLlmTitleCandidate`. -/
def sanitizeLlmTitleCandidate (raw : String) : Option String :=
  let firstLine := ((splitLinesCh raw.data).map trimChars).find? (fun l => !l.isEmpty)
  match firstLine with
  | none => none
  | some line =>
    let cleaned := trimChars (collapseWs
      (((dropLeadHashes line).dropWhile isQuoteChar).reverse.dropWhile isQuoteChar).reverse)
    if cleaned.isEmpty then none else some ⟨cleaned⟩

/-- The `env` portion of an `OpenClawConfig`: `cfg.env?.vars?.[key]` and the
`cfg.env?.[key]` sugar form. -/
structure CfgEnv where
  vars : String → Option String
  sugar : String → Option String

/-- `resolveConfigEnvVar`. -/
def resolveConfigEnvVar (cfg : CfgEnv) (key : String) : Option String :=
  match cfg.vars key with
  | some nested =>
    if jsTrim nested ≠ "" then some nested
    else
      match cfg.sugar key with
      | some sugar => if jsTrim sugar ≠ "" then some sugar else none
      | none => none
  | none =>
    match cfg.sugar key with
    | some sugar => if jsTrim sugar ≠ "" then some sugar else none
    | none => none

/-- `resolveThreadTitleEnvValue`. -/
def resolveThreadTitleEnvValue (cfg : Option CfgEnv) (env : String → Option String)
    (key : String) : Option String :=
  let fromConfig := cfg.bind (fun c => resolveConfigEnvVar c key)
  match fromConfig with
  | some v => if v ≠ "" then some v else
      match env key with
      | some p => if jsTrim p ≠ "" then some p else none
      | none => none
  | none =>
    match env key with
    | some p => if jsTrim p ≠ "" then some p else none
    | none => none

def digitsValue : List Char → Option Nat
  | [] => none
  | cs =>
    let run := cs.takeWhile Char.isDigit
    if run.isEmpty then none
    else some (run.foldl (fun acc c => acc * 10 + (c.toNat - 48)) 0)

/-- `Number.parseInt(s, 10)`: skip leading whitespace, optional sign, longest digit
prefix; `none` models `NaN`. -/
def jsParseIntDec (s : String) : Option Int :=
  let cs := s.data.dropWhile jsWs
  match cs with
  | '-' :: rest => (digitsValue rest).map (fun n => -(n : Int))
  | '+' :: rest => (digitsValue rest).map (fun n => (n : Int))
  | _ => (digitsValue cs).map (fun n => (n : Int))

def DEFAULT_LLM_TIMEOUT_MS : Int := 12000

/-- Resolved thread-title LLM settings. -/
structure ThreadTitleLlmSettings where
  strategy : ThreadTitleStrategy
  modelRef : Option String := none
  timeoutMs : Int
  allowOverwriteCurrentTitle : Bool
deriving DecidableEq, Repr

/-- `resolveThreadTitleLlmSettings` from thread-title-llm.ts. -/
def resolveThreadTitleLlmSettings (cfg : Option CfgEnv) (env : String → Option String) :
    ThreadTitleLlmSettings :=
  let strategy := normalizeStrategy
    (resolveThreadTitleEnvValue cfg env "OPENCLAW_THREAD_TITLE_STRATEGY")
  let configuredModelRef := normalizeThreadTitleModelRef
    (resolveThreadTitleEnvValue cfg env "OPENCLAW_THREAD_TITLE_MODEL")
  let timeoutRaw := jsParseIntDec
    ((resolveThreadTitleEnvValue cfg env "OPENCLAW_THREAD_TITLE_TIMEOUT_MS").getD "")
  let timeoutMs :=
    match timeoutRaw with
    | some v => if 0 < v then min 60000 (max 3000 v) else DEFAULT_LLM_TIMEOUT_MS
    | none => DEFAULT_LLM_TIMEOUT_MS
  let allowOverwriteRaw :=
    (resolveThreadTitleEnvValue cfg env "OPENCLAW_THREAD_TITLE_OVERWRITE_EXISTING").map
      (fun v => jsToLower (jsTrim v))
  let allowOverwriteCurrentTitle :=
    allowOverwriteRaw = some "1" || allowOverwriteRaw = some "true" ||
      allowOverwriteRaw = some "yes"
  { strategy := strategy
    modelRef := configuredModelRef
    timeoutMs := timeoutMs
    allowOverwriteCurrentTitle := allowOverwriteCurrentTitle }

/-- Modelled from the spec: `parseModelRef` (src/agents/model-selection.ts, not among
the sources in view) splits a model reference into a (provider, model) pair, using the
supplied default provider when the reference carries no provider segment; unusable
input yields nothing rather than an exception (spec §4.2: unsupported references skip). -/
def parseModelRef (ref : String) (defaultProvider : String) : Option (String × String) :=
  let t := jsTrim ref
  if t = "" then none
  else
    match splitAtChar '/' t.data with
    | none => some (defaultProvider, t)
    | some (before, after) =>
      if before.isEmpty || after.isEmpty then none
      else some (⟨before⟩, ⟨after⟩)

/-- `cfg.agents?.defaults?.model`, which is either a plain string or an object with an
optional `primary` field. -/
inductive AgentModelField
  | str (s : String)
  | obj (primary : Option String)
deriving DecidableEq, Repr

def jsTruthy : Option String → Bool
  | none => false
  | some s => s ≠ ""

/-- `resolveGoogleApiKey`. -/
def resolveGoogleApiKey (cfg : Option CfgEnv) (env : String → Option String) :
    Option String :=
  (resolveThreadTitleEnvValue cfg env "GEMINI_API_KEY").orElse
    (fun _ => resolveThreadTitleEnvValue cfg env "GOOGLE_API_KEY")

/-- `resolveAnthropicApiKey`. -/
def resolveAnthropicApiKey (cfg : Option CfgEnv) (env : String → Option String) :
    Option String :=
  resolveThreadTitleEnvValue cfg env "ANTHROPIC_API_KEY"

/-- `[primaryText, fallbackText].filter(Boolean).join("\n\n").slice(0, 6000)`. -/
def llmSeedText (a b : Option String) : String :=
  let parts := ([a, b].filterMap id).filter (fun s => s ≠ "")
  ⟨(String.intercalate "\n\n" parts).data.take 6000⟩

/-- Inputs of `generateThreadTitleViaLLM` (config material and texts). -/
structure GenParams where
  cfgEnv : Option CfgEnv := none
  procEnv : String → Option String := fun _ => none
  agentsDefaultsModel : Option AgentModelField := none
  primaryText : Option String := none
  fallbackText : Option String := none
  maxChars : Nat := 60
  modelRef : Option String := none
  timeoutMs : Option Int := none

/-- Outcomes the provider fetch helpers would have if called: a thrown error (network
failure, timeout abort) or the optional text extracted from the response (non-OK HTTP
responses and unparseable bodies yield `none`). -/
structure GenEffectsNet where
  googleFetch : Except JsError (Option String) := .ok none
  anthropicFetch : Except JsError (Option String) := .ok none

/-- `generateThreadTitleViaLLM` (fetch-based revision) from thread-title-llm.ts, as a
computation that may in principle propagate a thrown error (`Except.error`); the
try/catch of the source is translated explicitly. -/
def generateThreadTitleViaLLM (p : GenParams) (eff : GenEffectsNet) :
    Except JsError (Option String) :=
  let primaryText := p.primaryText.map jsTrim
  let fallbackText := p.fallbackText.map jsTrim
  if !jsTruthy primaryText && !jsTruthy fallbackText then .ok none
  else
    let defaultModelRef : Option String :=
      match p.agentsDefaultsModel with
      | none => none
      | some (AgentModelField.str s) => some s
      | some (AgentModelField.obj primary) => primary
    let configuredModelRef := (normalizeThreadTitleModelRef p.modelRef).orElse
      (fun _ => normalizeThreadTitleModelRef defaultModelRef)
    match configuredModelRef with
    | none => .ok none
    | some ref =>
      match parseModelRef ref "anthropic" with
      | none => .ok none
      | some parsedRef =>
        if !(["google", "anthropic"].contains parsedRef.1) then .ok none
        else
          let apiKey :=
            if parsedRef.1 = "google" then resolveGoogleApiKey p.cfgEnv p.procEnv
            else resolveAnthropicApiKey p.cfgEnv p.procEnv
          match apiKey with
          | none => .ok none
          | some _ =>
            let sourceText := llmSeedText
              (if jsTruthy primaryText then primaryText else none)
              (if jsTruthy fallbackText then fallbackText else none)
            if sourceText = "" then .ok none
            else
              match (if parsedRef.1 = "google" then eff.googleFetch
                     else eff.anthropicFetch) with
              | .ok rawText =>
                match rawText with
                | none => .ok none
                | some rt => if rt = "" then .ok none else .ok (sanitizeLlmTitleCandidate rt)
              | .error _ => .ok none

/-- One payload of an embedded agent run. -/
structure PiPayload where
  isError : Option Bool := none
  text : Option String := none
deriving DecidableEq, Repr

/-- Outcomes of the effectful steps of the embedded-runner revision: the temp-dir
creation, the agent run, and the temp-dir removal. -/
structure GenEffectsRun where
  mkdtemp : Except JsError String := .ok "/tmp/openclaw-thread-title-x"
  run : Except JsError (List PiPayload) := .ok []
  rm : Except JsError Unit := .ok ()

/-- `generateThreadTitleViaLLM` (embedded-runner revision) from thread-title-llm.ts;
the try/catch/finally of the source is translated explicitly (the `finally` block
swallows removal errors via `.catch`). -/
def generateThreadTitleViaLLMEmbedded (p : GenParams) (eff : GenEffectsRun) :
    Except JsError (Option String) :=
  let primaryText := p.primaryText.map jsTrim
  let fallbackText := p.fallbackText.map jsTrim
  if !jsTruthy primaryText && !jsTruthy fallbackText then .ok none
  else
    let defaultModelRef : Option String :=
      match p.agentsDefaultsModel with
      | none => none
      | some (AgentModelField.str s) => some s
      | some (AgentModelField.obj primary) => primary
    let configuredModelRef := (normalizeThreadTitleModelRef p.modelRef).orElse
      (fun _ => normalizeThreadTitleModelRef defaultModelRef)
    match configuredModelRef with
    | none => .ok none
    | some ref =>
      match parseModelRef ref "anthropic" with
      | none => .ok none
      | some parsedRef =>
        if !(["google", "anthropic"].contains parsedRef.1) then .ok none
        else
          let sourceText := llmSeedText
            (if jsTruthy primaryText then primaryText else none)
            (if jsTruthy fallbackText then fallbackText else none)
          if sourceText = "" then .ok none
          else
            match eff.mkdtemp with
            | .error _ => .ok none
            | .ok _ =>
              match eff.run with
              | .error _ => .ok none
              | .ok payloads =>
                let rawText := ((payloads.filter (fun pl => pl.isError ≠ some true)).filterMap
                    (fun pl => pl.text.map jsTrim)).find? (fun t => t ≠ "")
                .ok (sanitizeLlmTitleCandidate ((rawText).getD ""))

/-- Modelled from the spec: the wiring of `allowOverwriteCurrentTitle` (resolved by
`resolveThreadTitleLlmSettings`) into the engine is not among the sources in view; the
spec (§4.3) says the current-title pre-check applies "unless an explicit allow
overwrite setting is enabled", in which case the existing title may be replaced.  We
model the wiring as disabling the `getCurrentTitle` pre-check when the setting is on. -/
def applyThreadTitleWithSettings (settings : ThreadTitleLlmSettings) (prov : Provider)
    (eff : ProviderEffects) (p : ApplyParams) (store : InMemoryStore) : ApplyOutcome :=
  applyThreadTitle
    { prov with hasGetCurrentTitle :=
        prov.hasGetCurrentTitle && !settings.allowOverwriteCurrentTitle }
    eff p store

/-! ## Store lemmas -/

theorem setStoreState_maxEntries (s : InMemoryStore) (st : ThreadTitleState) :
    (setStoreState s st).maxEntries = s.maxEntries := by
  unfold setStoreState storeSet
  split <;> rfl

theorem evict_keeps_last (m : Nat) (hm : 1 ≤ m) (x : String × ThreadTitleState) :
    ∀ pre : List (String × ThreadTitleState),
      ∃ pre2, evictOldest m (pre ++ [x]) = pre2 ++ [x] ∧ ∀ e ∈ pre2, e ∈ pre := by
  intro pre
  induction pre with
  | nil =>
    refine ⟨[], ?_, by simp⟩
    obtain ⟨k, v⟩ := x
    rw [List.nil_append]
    rw [evictOldest]
    have h1 : ¬ (m < ((k, v) :: ([] : List (String × ThreadTitleState))).length) := by
      simp
      omega
    rw [if_neg h1]
  | cons a pre ih =>
    obtain ⟨ka, va⟩ := a
    rw [List.cons_append, evictOldest]
    split
    · split
      · exact ⟨(ka, va) :: pre, by simp, by intro e he; exact he⟩
      · obtain ⟨pre2, heq, hsub⟩ := ih
        exact ⟨pre2, heq, fun e he => List.mem_cons_of_mem _ (hsub e he)⟩
    · exact ⟨(ka, va) :: pre, by simp, fun e he => he⟩

theorem find?_append_last (k : String) (v : ThreadTitleState) :
    ∀ pre2 : List (String × ThreadTitleState), (∀ e ∈ pre2, e.1 ≠ k) →
      List.find? (fun e => e.1 = k) (pre2 ++ [(k, v)]) = some (k, v) := by
  intro pre2
  induction pre2 with
  | nil => intro _; simp [List.find?]
  | cons a rest ih =>
    intro h
    have ha : a.1 ≠ k := h a (List.mem_cons_self a rest)
    rw [List.cons_append, List.find?_cons_of_neg, ih (fun e he => h e (List.mem_cons_of_mem _ he))]
    simpa using ha

theorem storeGet_storeSet_self (s : InMemoryStore) (k : String) (v : ThreadTitleState)
    (hm : 1 ≤ s.maxEntries) : storeGet (storeSet s k v) k = some v := by
  unfold storeGet storeSet
  obtain ⟨pre2, heq, hsub⟩ :=
    evict_keeps_last s.maxEntries hm (k, v) (s.entries.filter (fun e => e.1 ≠ k))
  simp only [heq]
  rw [find?_append_last k v pre2]
  · rfl
  · intro e he
    have hmem := hsub e he
    have := List.of_mem_filter hmem
    simpa using this

/-! ## Engine characterization -/

/-- The outcome of the `setTitle` stage, by case on the call's result. -/
def StageSpec (prov : Provider) (eff : ProviderEffects) (threadKey title : String)
    (now : Int) (base : ThreadTitleState) (store1 : InMemoryStore) (gct : Nat)
    (o : ApplyOutcome) : Prop :=
  (eff.setTitle = Except.ok () ∧ o = {
      result := {
        outcome := "applied"
        reason := "applied"
        title := some title
        threadKey := some threadKey }
      store := setStoreState store1 (appliedStateOf base title now)
      setTitleCalls := 1
      getCurrentTitleCalls := gct
      writes := [base, appliedStateOf base title now] }) ∨
  (∃ e, eff.setTitle = Except.error e ∧
    (classifyOf prov e = TTErrorClass.permission ∨ classifyOf prov e = TTErrorClass.not_found) ∧
    o = {
      result := {
        outcome := "failed"
        reason := "set_title_failed"
        title := some title
        threadKey := some threadKey
        errorClass := some (classifyOf prov e) }
      store := setStoreState store1 (failDisabledStateOf base (classifyOf prov e))
      setTitleCalls := 1
      getCurrentTitleCalls := gct
      writes := [base, failDisabledStateOf base (classifyOf prov e)] }) ∨
  (∃ e, eff.setTitle = Except.error e ∧
    classifyOf prov e ≠ TTErrorClass.permission ∧ classifyOf prov e ≠ TTErrorClass.not_found ∧
    o = {
      result := {
        outcome := "failed"
        reason := "set_title_failed"
        title := some title
        threadKey := some threadKey
        errorClass := some (classifyOf prov e) }
      store := setStoreState store1 (failRetryStateOf base now (classifyOf prov e) (retryMsOf prov e))
      setTitleCalls := 1
      getCurrentTitleCalls := gct
      writes := [base, failRetryStateOf base now (classifyOf prov e) (retryMsOf prov e)] })

theorem applySetTitleStage_spec (prov : Provider) (eff : ProviderEffects)
    (threadKey title : String) (now : Int) (base : ThreadTitleState)
    (store1 : InMemoryStore) (gct : Nat) :
    StageSpec prov eff threadKey title now base store1 gct
      (applySetTitleStage prov eff threadKey title now base store1 gct) := by
  unfold StageSpec applySetTitleStage
  split
  · rename_i u heq
    cases u
    exact Or.inl ⟨heq, rfl⟩
  · rename_i e heq
    dsimp only
    split
    · rename_i hcls
      simp only [Bool.or_eq_true, decide_eq_true_eq] at hcls
      exact Or.inr (Or.inl ⟨e, heq, hcls, rfl⟩)
    · rename_i hcls
      simp only [Bool.or_eq_true, decide_eq_true_eq, not_or] at hcls
      exact Or.inr (Or.inr ⟨e, heq, hcls.1, hcls.2, rfl⟩)

/-- The eligibility gates that a call must pass before any work happens. -/
def EngineGates (prov : Provider) (p : ApplyParams) (store : InMemoryStore) (tk : String) :
    Prop :=
  channelOk prov p.target = true ∧
  resolvedThreadKey prov p.target = some tk ∧
  statusIs (storeGet store tk) TTStatus.disabled = false ∧
  inCooldown (storeGet store tk) p.nowMs = false ∧
  statusIs (storeGet store tk) TTStatus.applied = false

/-- Full case characterization of one `applyThreadTitle` invocation. -/
def EngineSpec (prov : Provider) (eff : ProviderEffects) (p : ApplyParams)
    (store : InMemoryStore) (o : ApplyOutcome) : Prop :=
  (channelOk prov p.target = false ∧
    o = skipOutcome { outcome := "skipped", reason := "provider_mismatch" } store) ∨
  (channelOk prov p.target = true ∧ resolvedThreadKey prov p.target = none ∧
    o = skipOutcome { outcome := "skipped", reason := "unsupported_target" } store) ∨
  (∃ tk, resolvedThreadKey prov p.target = some tk ∧
    statusIs (storeGet store tk) TTStatus.disabled = true ∧
    o = skipOutcome { outcome := "skipped", reason := "disabled", threadKey := some tk } store) ∨
  (∃ tk, resolvedThreadKey prov p.target = some tk ∧
    inCooldown (storeGet store tk) p.nowMs = true ∧
    o = skipOutcome { outcome := "skipped", reason := "cooldown", threadKey := some tk } store) ∨
  (∃ tk, resolvedThreadKey prov p.target = some tk ∧
    statusIs (storeGet store tk) TTStatus.applied = true ∧
    o = skipOutcome
      { outcome := "skipped", reason := "already_applied", threadKey := some tk } store) ∨
  (∃ tk, EngineGates prov p store tk ∧
    deriveConversationTitle p.primaryText p.fallbackText p.maxChars = none ∧
    o = skipOutcome
      { outcome := "skipped", reason := "no_candidate", threadKey := some tk } store) ∨
  (∃ tk title currentTitle, EngineGates prov p store tk ∧
    deriveConversationTitle p.primaryText p.fallbackText p.maxChars = some title ∧
    prov.hasGetCurrentTitle = true ∧
    eff.getCurrentTitle = Except.ok (some currentTitle) ∧
    (currentTitle ≠ "" && !isDefaultThreadPlaceholder (some currentTitle)) = true ∧
    o = {
      result := {
        outcome := "skipped"
        reason := "existing_title_present"
        threadKey := some tk }
      store := setStoreState
        (setStoreState store (baseStateOf (storeGet store tk) tk title p.nowMs))
        (existingTitleStateOf (baseStateOf (storeGet store tk) tk title p.nowMs)
          currentTitle p.nowMs)
      setTitleCalls := 0
      getCurrentTitleCalls := 1
      writes := [baseStateOf (storeGet store tk) tk title p.nowMs,
        existingTitleStateOf (baseStateOf (storeGet store tk) tk title p.nowMs)
          currentTitle p.nowMs] }) ∨
  (∃ tk title gct, EngineGates prov p store tk ∧
    deriveConversationTitle p.primaryText p.fallbackText p.maxChars = some title ∧
    StageSpec prov eff tk title p.nowMs (baseStateOf (storeGet store tk) tk title p.nowMs)
      (setStoreState store (baseStateOf (storeGet store tk) tk title p.nowMs)) gct o)

theorem applyThreadTitle_spec (prov : Provider) (eff : ProviderEffects) (p : ApplyParams)
    (store : InMemoryStore) :
    EngineSpec prov eff p store (applyThreadTitle prov eff p store) := by
  unfold EngineSpec applyThreadTitle
  split
  · rename_i hch
    exact Or.inl ⟨by simpa using hch, rfl⟩
  · rename_i hch
    have hch2 : channelOk prov p.target = true := by simpa using hch
    split
    · rename_i hrtk
      exact Or.inr (Or.inl ⟨hch2, hrtk, rfl⟩)
    · rename_i tk hrtk
      dsimp only
      split
      · rename_i hdis
        exact Or.inr (Or.inr (Or.inl ⟨tk, hrtk, hdis, rfl⟩))
      · rename_i hdis
        have hdis2 : statusIs (storeGet store tk) TTStatus.disabled = false := by
          simpa using hdis
        split
        · rename_i hcool
          exact Or.inr (Or.inr (Or.inr (Or.inl ⟨tk, hrtk, hcool, rfl⟩)))
        · rename_i hcool
          have hcool2 : inCooldown (storeGet store tk) p.nowMs = false := by
            simpa using hcool
          split
          · rename_i happ
            exact Or.inr (Or.inr (Or.inr (Or.inr (Or.inl ⟨tk, hrtk, happ, rfl⟩))))
          · rename_i happ
            have happ2 : statusIs (storeGet store tk) TTStatus.applied = false := by
              simpa using happ
            have gates : EngineGates prov p store tk := ⟨hch2, hrtk, hdis2, hcool2, happ2⟩
            split
            · rename_i hder
              exact Or.inr (Or.inr (Or.inr (Or.inr (Or.inr (Or.inl
                ⟨tk, gates, hder, rfl⟩)))))
            · rename_i title hder
              split
              · rename_i hhas
                split
                · rename_i currentTitle hgct
                  split
                  · rename_i hct
                    exact Or.inr (Or.inr (Or.inr (Or.inr (Or.inr (Or.inr (Or.inl
                      ⟨tk, title, currentTitle, gates, hder, hhas, hgct, hct, rfl⟩))))))
                  · exact Or.inr (Or.inr (Or.inr (Or.inr (Or.inr (Or.inr (Or.inr
                      ⟨tk, title, 1, gates, hder, applySetTitleStage_spec prov eff tk title
                        p.nowMs _ _ 1⟩))))))
                · exact Or.inr (Or.inr (Or.inr (Or.inr (Or.inr (Or.inr (Or.inr
                    ⟨tk, title, 1, gates, hder, applySetTitleStage_spec prov eff tk title
                      p.nowMs _ _ 1⟩))))))
                · exact Or.inr (Or.inr (Or.inr (Or.inr (Or.inr (Or.inr (Or.inr
                    ⟨tk, title, 1, gates, hder, applySetTitleStage_spec prov eff tk title
                      p.nowMs _ _ 1⟩))))))
              · exact Or.inr (Or.inr (Or.inr (Or.inr (Or.inr (Or.inr (Or.inr
                  ⟨tk, title, 0, gates, hder, applySetTitleStage_spec prov eff tk title
                    p.nowMs _ _ 0⟩))))))

theorem resolvedThreadKey_ne_empty (prov : Provider) (t : ThreadTitleTarget) (tk : String)
    (h : resolvedThreadKey prov t = some tk) : tk ≠ "" := by
  unfold resolvedThreadKey at h
  split at h
  · exact absurd h (by simp)
  · rename_i tk0 _
    by_cases h0 : tk0 = ""
    · rw [if_pos h0] at h
      exact absurd h (by simp)
    · rw [if_neg h0] at h
      cases h
      exact h0

theorem applyThreadTitle_disabled_skip (prov : Provider) (eff : ProviderEffects)
    (p : ApplyParams) (store : InMemoryStore) (tk : String) (st : ThreadTitleState)
    (hch : channelOk prov p.target = true)
    (hrtk : resolvedThreadKey prov p.target = some tk)
    (hget : storeGet store tk = some st)
    (hst : st.status = TTStatus.disabled) :
    applyThreadTitle prov eff p store =
      skipOutcome { outcome := "skipped", reason := "disabled", threadKey := some tk } store := by
  unfold applyThreadTitle
  rw [hch]
  simp only [Bool.not_true, Bool.false_eq_true, if_false, hrtk, hget, statusIs, hst]
  simp

theorem applyThreadTitle_applied_skip (prov : Provider) (eff : ProviderEffects)
    (p : ApplyParams) (store : InMemoryStore) (tk : String) (st : ThreadTitleState)
    (hch : channelOk prov p.target = true)
    (hrtk : resolvedThreadKey prov p.target = some tk)
    (hget : storeGet store tk = some st)
    (hst : st.status = TTStatus.applied) :
    applyThreadTitle prov eff p store =
      skipOutcome
        { outcome := "skipped", reason := "already_applied", threadKey := some tk } store := by
  unfold applyThreadTitle
  rw [hch]
  simp only [Bool.not_true, Bool.false_eq_true, if_false, hrtk, hget, statusIs, inCooldown, hst]
  simp

theorem applyThreadTitle_cooldown_skip (prov : Provider) (eff : ProviderEffects)
    (p : ApplyParams) (store : InMemoryStore) (tk : String) (st : ThreadTitleState)
    (ra : Int)
    (hch : channelOk prov p.target = true)
    (hrtk : resolvedThreadKey prov p.target = some tk)
    (hget : storeGet store tk = some st)
    (hst : st.status = TTStatus.retry_after)
    (hra : st.retryAfter = some ra)
    (hnow : p.nowMs < ra) :
    applyThreadTitle prov eff p store =
      skipOutcome { outcome := "skipped", reason := "cooldown", threadKey := some tk } store := by
  unfold applyThreadTitle
  rw [hch]
  simp only [Bool.not_true, Bool.false_eq_true, if_false, hrtk, hget, statusIs, inCooldown,
    hst, hra]
  simp [hnow]

theorem setStoreState_eq_storeSet (s : InMemoryStore) (st : ThreadTitleState)
    (h : st.threadKey ≠ "") : setStoreState s st = storeSet s st.threadKey st := by
  unfold setStoreState
  exact if_neg h

/-- C1: Idempotence of title application.  For a fixed provider, target, texts and
in-memory state store, if one `applyThreadTitle` call returns outcome "applied"
(which entails exactly one `setTitle` invocation), then a second call with the same
provider, target and texts against the resulting store invokes `setTitle` zero further
times and returns outcome "skipped" with reason "already_applied". -/
theorem applyThreadTitle_idempotent
    (prov : Provider) (eff1 eff2 : ProviderEffects) (p : ApplyParams) (now2 : Int)
    (store0 : InMemoryStore) (hmax : 1 ≤ store0.maxEntries)
    (happ : (applyThreadTitle prov eff1 p store0).result.outcome = "applied") :
    (applyThreadTitle prov eff1 p store0).setTitleCalls = 1 ∧
    (applyThreadTitle prov eff2 { p with nowMs := now2 }
      (applyThreadTitle prov eff1 p store0).store).result.outcome = "skipped" ∧
    (applyThreadTitle prov eff2 { p with nowMs := now2 }
      (applyThreadTitle prov eff1 p store0).store).result.reason = "already_applied" ∧
    (applyThreadTitle prov eff2 { p with nowMs := now2 }
      (applyThreadTitle prov eff1 p store0).store).setTitleCalls = 0 := by
  rcases applyThreadTitle_spec prov eff1 p store0 with
    ⟨_, heq⟩ | ⟨_, _, heq⟩ | ⟨tk, _, _, heq⟩ | ⟨tk, _, _, heq⟩ | ⟨tk, _, _, heq⟩ |
    ⟨tk, _, _, heq⟩ | ⟨tk, title, ct, _, _, _, _, _, heq⟩ |
    ⟨tk, title, gct, gates, hder, hstage⟩
  · rw [heq] at happ; exact absurd happ (by simp [skipOutcome])
  · rw [heq] at happ; exact absurd happ (by simp [skipOutcome])
  · rw [heq] at happ; exact absurd happ (by simp [skipOutcome])
  · rw [heq] at happ; exact absurd happ (by simp [skipOutcome])
  · rw [heq] at happ; exact absurd happ (by simp [skipOutcome])
  · rw [heq] at happ; exact absurd happ (by simp [skipOutcome])
  · rw [heq] at happ; exact absurd happ (by simp)
  · rcases hstage with ⟨hok, heq⟩ | ⟨e, herr, hcls, heq⟩ | ⟨e, herr, hcls1, hcls2, heq⟩
    · rw [heq]
      refine ⟨rfl, ?_⟩
      have htk : tk ≠ "" := resolvedThreadKey_ne_empty prov p.target tk gates.2.1
      have hm1 : 1 ≤ (setStoreState store0
          (baseStateOf (storeGet store0 tk) tk title p.nowMs)).maxEntries := by
        rw [setStoreState_maxEntries]; exact hmax
      have hak : (appliedStateOf (baseStateOf (storeGet store0 tk) tk title p.nowMs)
          title p.nowMs).threadKey = tk := rfl
      have hget2 : storeGet
          (setStoreState (setStoreState store0 (baseStateOf (storeGet store0 tk) tk title p.nowMs))
            (appliedStateOf (baseStateOf (storeGet store0 tk) tk title p.nowMs) title p.nowMs))
          tk = some (appliedStateOf (baseStateOf (storeGet store0 tk) tk title p.nowMs)
            title p.nowMs) := by
        rw [setStoreState_eq_storeSet _ _ (by rw [hak]; exact htk), hak]
        exact storeGet_storeSet_self _ tk _ hm1
      have hskip := applyThreadTitle_applied_skip prov eff2 { p with nowMs := now2 }
        (setStoreState (setStoreState store0 (baseStateOf (storeGet store0 tk) tk title p.nowMs))
          (appliedStateOf (baseStateOf (storeGet store0 tk) tk title p.nowMs) title p.nowMs))
        tk (appliedStateOf (baseStateOf (storeGet store0 tk) tk title p.nowMs) title p.nowMs)
        gates.1 gates.2.1 hget2 rfl
      rw [hskip]
      exact ⟨rfl, rfl, rfl⟩
    · rw [heq] at happ; exact absurd happ (by simp)
    · rw [heq] at happ; exact absurd happ (by simp)

def slackProviderEx : Provider := { channel := "slack" }

def slackTargetEx : ThreadTitleTarget :=
  { channel := "slack", conversationId := some "C1", threadId := some "7" }

def applyParamsEx : ApplyParams :=
  { target := slackTargetEx, primaryText := some "Fix login bug", maxChars := 80, nowMs := 5 }

theorem applyThreadTitle_idempotent_witness :
    (1 ≤ ({} : InMemoryStore).maxEntries ∧
      (applyThreadTitle slackProviderEx {} applyParamsEx {}).result.outcome = "applied") ∧
    ((applyThreadTitle slackProviderEx {} applyParamsEx {}).setTitleCalls = 1 ∧
    (applyThreadTitle slackProviderEx {} { applyParamsEx with nowMs := 99 }
      (applyThreadTitle slackProviderEx {} applyParamsEx {}).store).result.outcome = "skipped" ∧
    (applyThreadTitle slackProviderEx {} { applyParamsEx with nowMs := 99 }
      (applyThreadTitle slackProviderEx {} applyParamsEx {}).store).result.reason =
        "already_applied" ∧
    (applyThreadTitle slackProviderEx {} { applyParamsEx with nowMs := 99 }
      (applyThreadTitle slackProviderEx {} applyParamsEx {}).store).setTitleCalls = 0) :=
  ⟨⟨by decide, by decide⟩,
    applyThreadTitle_idempotent slackProviderEx {} {} applyParamsEx 99 {} (by decide) (by decide)⟩

/-- C2: Permission failures disable permanently.  (i) Whenever an `applyThreadTitle`
call fails with error class `permission`, the store afterwards holds status `disabled`
under the call's thread key.  (ii) For any store whose entry at the resolved thread
key has status `disabled`, the call returns outcome "skipped" with reason "disabled"
and invokes neither `setTitle` nor `getCurrentTitle`. -/
theorem applyThreadTitle_permission_disables :
    (∀ (prov : Provider) (eff : ProviderEffects) (p : ApplyParams) (store : InMemoryStore),
      1 ≤ store.maxEntries →
      (applyThreadTitle prov eff p store).result.outcome = "failed" →
      (applyThreadTitle prov eff p store).result.errorClass = some TTErrorClass.permission →
      ∃ tk, (applyThreadTitle prov eff p store).result.threadKey = some tk ∧
        (storeGet (applyThreadTitle prov eff p store).store tk).map (fun s => s.status) =
          some TTStatus.disabled) ∧
    (∀ (prov : Provider) (eff : ProviderEffects) (p : ApplyParams) (store : InMemoryStore)
      (tk : String) (st : ThreadTitleState),
      channelOk prov p.target = true →
      resolvedThreadKey prov p.target = some tk →
      storeGet store tk = some st → st.status = TTStatus.disabled →
      (applyThreadTitle prov eff p store).result.outcome = "skipped" ∧
      (applyThreadTitle prov eff p store).result.reason = "disabled" ∧
      (applyThreadTitle prov eff p store).setTitleCalls = 0 ∧
      (applyThreadTitle prov eff p store).getCurrentTitleCalls = 0) := by
  constructor
  · intro prov eff p store hmax hfail hperm
    rcases applyThreadTitle_spec prov eff p store with
      ⟨_, heq⟩ | ⟨_, _, heq⟩ | ⟨tk, _, _, heq⟩ | ⟨tk, _, _, heq⟩ | ⟨tk, _, _, heq⟩ |
      ⟨tk, _, _, heq⟩ | ⟨tk, title, ct, _, _, _, _, _, heq⟩ |
      ⟨tk, title, gct, gates, hder, hstage⟩
    · rw [heq] at hfail; exact absurd hfail (by simp [skipOutcome])
    · rw [heq] at hfail; exact absurd hfail (by simp [skipOutcome])
    · rw [heq] at hfail; exact absurd hfail (by simp [skipOutcome])
    · rw [heq] at hfail; exact absurd hfail (by simp [skipOutcome])
    · rw [heq] at hfail; exact absurd hfail (by simp [skipOutcome])
    · rw [heq] at hfail; exact absurd hfail (by simp [skipOutcome])
    · rw [heq] at hfail; exact absurd hfail (by simp)
    · rcases hstage with ⟨hok, heq⟩ | ⟨e, herr, hcls, heq⟩ | ⟨e, herr, hcls1, hcls2, heq⟩
      · rw [heq] at hfail; exact absurd hfail (by simp)
      · rw [heq] at hperm ⊢
        refine ⟨tk, rfl, ?_⟩
        have htk : tk ≠ "" := resolvedThreadKey_ne_empty prov p.target tk gates.2.1
        have hm1 : 1 ≤ (setStoreState store
            (baseStateOf (storeGet store tk) tk title p.nowMs)).maxEntries := by
          rw [setStoreState_maxEntries]; exact hmax
        have hak : (failDisabledStateOf (baseStateOf (storeGet store tk) tk title p.nowMs)
            (classifyOf prov e)).threadKey = tk := rfl
        rw [setStoreState_eq_storeSet _ _ (by rw [hak]; exact htk), hak,
          storeGet_storeSet_self _ tk _ hm1]
        rfl
      · rw [heq] at hperm
        simp only [Option.some.injEq] at hperm
        exact absurd hperm hcls1
  · intro prov eff p store tk st hch hrtk hget hst
    rw [applyThreadTitle_disabled_skip prov eff p store tk st hch hrtk hget hst]
    exact ⟨rfl, rfl, rfl, rfl⟩

theorem applyThreadTitle_precheck_skip (prov : Provider) (eff : ProviderEffects)
    (p : ApplyParams) (store : InMemoryStore) (tk title currentTitle : String)
    (hch : channelOk prov p.target = true)
    (hrtk : resolvedThreadKey prov p.target = some tk)
    (hdis : statusIs (storeGet store tk) TTStatus.disabled = false)
    (hcool : inCooldown (storeGet store tk) p.nowMs = false)
    (happ : statusIs (storeGet store tk) TTStatus.applied = false)
    (hder : deriveConversationTitle p.primaryText p.fallbackText p.maxChars = some title)
    (hhas : prov.hasGetCurrentTitle = true)
    (hgct : eff.getCurrentTitle = Except.ok (some currentTitle))
    (hcte : currentTitle ≠ "")
    (hctp : isDefaultThreadPlaceholder (some currentTitle) = false) :
    applyThreadTitle prov eff p store = {
      result := {
        outcome := "skipped"
        reason := "existing_title_present"
        threadKey := some tk }
      store := setStoreState
        (setStoreState store (baseStateOf (storeGet store tk) tk title p.nowMs))
        (existingTitleStateOf (baseStateOf (storeGet store tk) tk title p.nowMs)
          currentTitle p.nowMs)
      setTitleCalls := 0
      getCurrentTitleCalls := 1
      writes := [baseStateOf (storeGet store tk) tk title p.nowMs,
        existingTitleStateOf (baseStateOf (storeGet store tk) tk title p.nowMs)
          currentTitle p.nowMs] } := by
  unfold applyThreadTitle
  rw [hch]
  simp only [Bool.not_true, Bool.false_eq_true, if_false, hrtk, hdis, hcool, happ, hder,
    hhas, hgct, hcte, hctp]
  simp
  intro h
  exact absurd h hcte

theorem applyThreadTitle_applies (prov : Provider) (eff : ProviderEffects)
    (p : ApplyParams) (store : InMemoryStore) (tk title : String)
    (hch : channelOk prov p.target = true)
    (hrtk : resolvedThreadKey prov p.target = some tk)
    (hdis : statusIs (storeGet store tk) TTStatus.disabled = false)
    (hcool : inCooldown (storeGet store tk) p.nowMs = false)
    (happ : statusIs (storeGet store tk) TTStatus.applied = false)
    (hder : deriveConversationTitle p.primaryText p.fallbackText p.maxChars = some title)
    (hhas : prov.hasGetCurrentTitle = false)
    (hok : eff.setTitle = Except.ok ()) :
    applyThreadTitle prov eff p store = {
      result := {
        outcome := "applied"
        reason := "applied"
        title := some title
        threadKey := some tk }
      store := setStoreState
        (setStoreState store (baseStateOf (storeGet store tk) tk title p.nowMs))
        (appliedStateOf (baseStateOf (storeGet store tk) tk title p.nowMs) title p.nowMs)
      setTitleCalls := 1
      getCurrentTitleCalls := 0
      writes := [baseStateOf (storeGet store tk) tk title p.nowMs,
        appliedStateOf (baseStateOf (storeGet store tk) tk title p.nowMs) title p.nowMs] } := by
  unfold applyThreadTitle applySetTitleStage
  rw [hch]
  simp only [Bool.not_true, Bool.false_eq_true, if_false, hrtk, hdis, hcool, happ, hder,
    hhas, hok]

/-- C6: Existing-title pre-check.  (i) When the provider defines `getCurrentTitle`
and it returns a non-empty title that is not a default placeholder, `applyThreadTitle`
records status `disabled` with `appliedTitle` set to that externally-set title,
returns outcome "skipped" with reason "existing_title_present", and never calls
`setTitle`.  (ii) The explicit allow-overwrite setting resolves to true from the
`OPENCLAW_THREAD_TITLE_OVERWRITE_EXISTING` value "1"/"true"/"yes".  (iii) With the
setting enabled the pre-check is bypassed and the existing title is replaced. -/
theorem applyThreadTitle_existing_title_precheck :
    (∀ (prov : Provider) (eff : ProviderEffects) (p : ApplyParams) (store : InMemoryStore)
      (tk title currentTitle : String),
      1 ≤ store.maxEntries →
      channelOk prov p.target = true →
      resolvedThreadKey prov p.target = some tk →
      statusIs (storeGet store tk) TTStatus.disabled = false →
      inCooldown (storeGet store tk) p.nowMs = false →
      statusIs (storeGet store tk) TTStatus.applied = false →
      deriveConversationTitle p.primaryText p.fallbackText p.maxChars = some title →
      prov.hasGetCurrentTitle = true →
      eff.getCurrentTitle = Except.ok (some currentTitle) →
      currentTitle ≠ "" →
      isDefaultThreadPlaceholder (some currentTitle) = false →
      (applyThreadTitle prov eff p store).result.outcome = "skipped" ∧
      (applyThreadTitle prov eff p store).result.reason = "existing_title_present" ∧
      (applyThreadTitle prov eff p store).setTitleCalls = 0 ∧
      ∃ st, storeGet (applyThreadTitle prov eff p store).store tk = some st ∧
        st.status = TTStatus.disabled ∧ st.appliedTitle = some currentTitle) ∧
    (∀ (cfg : Option CfgEnv) (env : String → Option String),
      ((resolveThreadTitleEnvValue cfg env "OPENCLAW_THREAD_TITLE_OVERWRITE_EXISTING").map
          (fun v => jsToLower (jsTrim v)) = some "1" ∨
        (resolveThreadTitleEnvValue cfg env "OPENCLAW_THREAD_TITLE_OVERWRITE_EXISTING").map
          (fun v => jsToLower (jsTrim v)) = some "true" ∨
        (resolveThreadTitleEnvValue cfg env "OPENCLAW_THREAD_TITLE_OVERWRITE_EXISTING").map
          (fun v => jsToLower (jsTrim v)) = some "yes") →
      (resolveThreadTitleLlmSettings cfg env).allowOverwriteCurrentTitle = true) ∧
    (∀ (settings : ThreadTitleLlmSettings) (prov : Provider) (eff : ProviderEffects)
      (p : ApplyParams) (store : InMemoryStore) (tk title : String),
      settings.allowOverwriteCurrentTitle = true →
      channelOk prov p.target = true →
      resolvedThreadKey prov p.target = some tk →
      statusIs (storeGet store tk) TTStatus.disabled = false →
      inCooldown (storeGet store tk) p.nowMs = false →
      statusIs (storeGet store tk) TTStatus.applied = false →
      deriveConversationTitle p.primaryText p.fallbackText p.maxChars = some title →
      eff.setTitle = Except.ok () →
      (applyThreadTitleWithSettings settings prov eff p store).result.outcome = "applied" ∧
      (applyThreadTitleWithSettings settings prov eff p store).result.title = some title ∧
      (applyThreadTitleWithSettings settings prov eff p store).setTitleCalls = 1) := by
  refine ⟨?_, ?_, ?_⟩
  · intro prov eff p store tk title currentTitle hmax hch hrtk hdis hcool happ hder hhas
      hgct hcte hctp
    rw [applyThreadTitle_precheck_skip prov eff p store tk title currentTitle hch hrtk hdis
      hcool happ hder hhas hgct hcte hctp]
    refine ⟨rfl, rfl, rfl, ?_⟩
    have htk : tk ≠ "" := resolvedThreadKey_ne_empty prov p.target tk hrtk
    have hm1 : 1 ≤ (setStoreState store
        (baseStateOf (storeGet store tk) tk title p.nowMs)).maxEntries := by
      rw [setStoreState_maxEntries]; exact hmax
    have hak : (existingTitleStateOf (baseStateOf (storeGet store tk) tk title p.nowMs)
        currentTitle p.nowMs).threadKey = tk := rfl
    refine ⟨existingTitleStateOf (baseStateOf (storeGet store tk) tk title p.nowMs)
      currentTitle p.nowMs, ?_, rfl, rfl⟩
    rw [setStoreState_eq_storeSet _ _ (by rw [hak]; exact htk), hak]
    exact storeGet_storeSet_self _ tk _ hm1
  · intro cfg env hraw
    unfold resolveThreadTitleLlmSettings
    rcases hraw with h | h | h <;> simp [h]
  · intro settings prov eff p store tk title hover hch hrtk hdis hcool happ hder hok
    unfold applyThreadTitleWithSettings
    have hhas : ({ prov with hasGetCurrentTitle :=
        prov.hasGetCurrentTitle && !settings.allowOverwriteCurrentTitle } :
        Provider).hasGetCurrentTitle = false := by
      rw [hover]
      simp
    rw [applyThreadTitle_applies
      ({ prov with hasGetCurrentTitle :=
          prov.hasGetCurrentTitle && !settings.allowOverwriteCurrentTitle })
      eff p store tk title hch hrtk hdis hcool happ hder hhas hok]
    exact ⟨rfl, rfl, rfl⟩

/-- C10: Retry timestamps are always strictly in the future.  Every state written by
`applyThreadTitle` with status `retry_after` stems from a `setTitle` rejection and has
`retryAfter = now + max(1000, retryAfterMs)`; in particular `retryAfter >= now + 1000`
even if the provider's `retryAfterMs` hook returns zero or a negative number. -/
theorem applyThreadTitle_retryAfter_future (prov : Provider) (eff : ProviderEffects)
    (p : ApplyParams) (store : InMemoryStore) (st : ThreadTitleState)
    (hmem : st ∈ (applyThreadTitle prov eff p store).writes)
    (hst : st.status = TTStatus.retry_after) :
    (∃ e, eff.setTitle = Except.error e ∧
      st.retryAfter = some (p.nowMs + max 1000 (retryMsOf prov e))) ∧
    (∀ ra, st.retryAfter = some ra → p.nowMs + 1000 ≤ ra) := by
  rcases applyThreadTitle_spec prov eff p store with
    ⟨_, heq⟩ | ⟨_, _, heq⟩ | ⟨tk, _, _, heq⟩ | ⟨tk, _, _, heq⟩ | ⟨tk, _, _, heq⟩ |
    ⟨tk, _, _, heq⟩ | ⟨tk, title, ct, _, _, _, _, _, heq⟩ |
    ⟨tk, title, gct, gates, hder, hstage⟩
  · rw [heq] at hmem; exact absurd hmem (by simp [skipOutcome])
  · rw [heq] at hmem; exact absurd hmem (by simp [skipOutcome])
  · rw [heq] at hmem; exact absurd hmem (by simp [skipOutcome])
  · rw [heq] at hmem; exact absurd hmem (by simp [skipOutcome])
  · rw [heq] at hmem; exact absurd hmem (by simp [skipOutcome])
  · rw [heq] at hmem; exact absurd hmem (by simp [skipOutcome])
  · rw [heq] at hmem
    simp only [List.mem_cons, List.mem_singleton, List.not_mem_nil, or_false] at hmem
    rcases hmem with h | h
    · rw [h] at hst; exact absurd hst (by simp [baseStateOf])
    · rw [h] at hst; exact absurd hst (by simp [existingTitleStateOf])
  · rcases hstage with ⟨hok, heq⟩ | ⟨e, herr, hcls, heq⟩ | ⟨e, herr, hcls1, hcls2, heq⟩
    · rw [heq] at hmem
      simp only [List.mem_cons, List.mem_singleton, List.not_mem_nil, or_false] at hmem
      rcases hmem with h | h
      · rw [h] at hst; exact absurd hst (by simp [baseStateOf])
      · rw [h] at hst; exact absurd hst (by simp [appliedStateOf])
    · rw [heq] at hmem
      simp only [List.mem_cons, List.mem_singleton, List.not_mem_nil, or_false] at hmem
      rcases hmem with h | h
      · rw [h] at hst; exact absurd hst (by simp [baseStateOf])
      · rw [h] at hst; exact absurd hst (by simp [failDisabledStateOf])
    · rw [heq] at hmem
      simp only [List.mem_cons, List.mem_singleton, List.not_mem_nil, or_false] at hmem
      rcases hmem with h | h
      · rw [h] at hst; exact absurd hst (by simp [baseStateOf])
      · constructor
        · exact ⟨e, herr, by rw [h]; rfl⟩
        · intro ra hra
          rw [h] at hra
          have : p.nowMs + max 1000 (retryMsOf prov e) = ra := by
            simpa [failRetryStateOf] using hra
          rw [← this]
          have h1000 : (1000 : Int) ≤ max 1000 (retryMsOf prov e) := le_max_left _ _
          omega

def notFoundProviderEx : Provider :=
  { channel := "slack", classifyError := some (fun _ => TTErrorClass.not_found) }

/-- C3 counterexample: in `applyThreadTitle`, a `setTitle` failure classified as
`not_found` does NOT transition the thread to a retry-after state: at this concrete
input the stored status is `disabled` and no written record has status `retry_after`,
refuting the claim that a not-found failure schedules a ~30-minute retry rather than
disabling permanently. -/
theorem applyThreadTitle_notFound_disables_counterexample :
    (applyThreadTitle notFoundProviderEx { setTitle := Except.error "thread not found" }
      applyParamsEx {}).result.outcome = "failed" ∧
    (applyThreadTitle notFoundProviderEx { setTitle := Except.error "thread not found" }
      applyParamsEx {}).result.errorClass = some TTErrorClass.not_found ∧
    (storeGet (applyThreadTitle notFoundProviderEx
        { setTitle := Except.error "thread not found" } applyParamsEx {}).store
      "slack:C1:7").map (fun s => s.status) = some TTStatus.disabled ∧
    (∀ st ∈ (applyThreadTitle notFoundProviderEx
        { setTitle := Except.error "thread not found" } applyParamsEx {}).writes,
      st.status ≠ TTStatus.retry_after) := by
  decide

/-- C3 (amended): In the session-store manager, a `setTitle` failure classified as
`not_found` transitions the thread state to `retry_after` with the fixed 30-minute
delay (`resolveRetryDelayMs` returns 30 * 60000 and `markRenameResult` stores
`retryAfter = now + 30 * 60000`); in the in-memory engine `applyThreadTitle`, however,
a `not_found` failure transitions the key to `disabled`. -/
theorem notFound_backoff :
    (∀ n : Nat, resolveRetryDelayMs TTErrorClass.not_found n = 30 * 60000) ∧
    (∀ (st : NativeThreadTitleState) (tk title : String) (attempts : Nat) (now : Int),
      st.threadKey = tk →
      ∃ st2, markRenameResultUpdate (some st) tk title attempts
          (some TTErrorClass.not_found) now = some st2 ∧
        st2.status = TTStatus.retry_after ∧
        st2.retryAfter = some (now + ((30 * 60000 : Nat) : Int))) ∧
    (∀ (prov : Provider) (eff : ProviderEffects) (p : ApplyParams) (store : InMemoryStore),
      1 ≤ store.maxEntries →
      (applyThreadTitle prov eff p store).result.outcome = "failed" →
      (applyThreadTitle prov eff p store).result.errorClass = some TTErrorClass.not_found →
      ∃ tk, (applyThreadTitle prov eff p store).result.threadKey = some tk ∧
        (storeGet (applyThreadTitle prov eff p store).store tk).map (fun s => s.status) =
          some TTStatus.disabled) := by
  refine ⟨?_, ?_, ?_⟩
  · intro n
    rfl
  · intro st tk title attempts now hkey
    have hupd : markRenameResultUpdate (some st) tk title attempts
        (some TTErrorClass.not_found) now = some { st with
          status := TTStatus.retry_after
          attempts := some attempts
          lastAttemptAt := some now
          lastErrorClass := some TTErrorClass.not_found
          retryAfter := some (now + ((30 * 60000 : Nat) : Int)) } := by
      unfold markRenameResultUpdate
      dsimp only
      rw [if_neg (by simp [hkey])]
      rfl
    exact ⟨_, hupd, rfl, rfl⟩
  · intro prov eff p store hmax hfail hnf
    rcases applyThreadTitle_spec prov eff p store with
      ⟨_, heq⟩ | ⟨_, _, heq⟩ | ⟨tk, _, _, heq⟩ | ⟨tk, _, _, heq⟩ | ⟨tk, _, _, heq⟩ |
      ⟨tk, _, _, heq⟩ | ⟨tk, title, ct, _, _, _, _, _, heq⟩ |
      ⟨tk, title, gct, gates, hder, hstage⟩
    · rw [heq] at hfail; exact absurd hfail (by simp [skipOutcome])
    · rw [heq] at hfail; exact absurd hfail (by simp [skipOutcome])
    · rw [heq] at hfail; exact absurd hfail (by simp [skipOutcome])
    · rw [heq] at hfail; exact absurd hfail (by simp [skipOutcome])
    · rw [heq] at hfail; exact absurd hfail (by simp [skipOutcome])
    · rw [heq] at hfail; exact absurd hfail (by simp [skipOutcome])
    · rw [heq] at hfail; exact absurd hfail (by simp)
    · rcases hstage with ⟨hok, heq⟩ | ⟨e, herr, hcls, heq⟩ | ⟨e, herr, hcls1, hcls2, heq⟩
      · rw [heq] at hfail; exact absurd hfail (by simp)
      · rw [heq] at hnf ⊢
        refine ⟨tk, rfl, ?_⟩
        have htk : tk ≠ "" := resolvedThreadKey_ne_empty prov p.target tk gates.2.1
        have hm1 : 1 ≤ (setStoreState store
            (baseStateOf (storeGet store tk) tk title p.nowMs)).maxEntries := by
          rw [setStoreState_maxEntries]; exact hmax
        have hak : (failDisabledStateOf (baseStateOf (storeGet store tk) tk title p.nowMs)
            (classifyOf prov e)).threadKey = tk := rfl
        rw [setStoreState_eq_storeSet _ _ (by rw [hak]; exact htk), hak,
          storeGet_storeSet_self _ tk _ hm1]
        rfl
      · rw [heq] at hnf
        simp only [Option.some.injEq] at hnf
        exact absurd hnf hcls2

/-- C4 counterexample: in `applyThreadTitle`, a `setTitle` failure classified as
`unknown` on the first attempt (a provider without a `retryAfterMs` hook) schedules a
flat `retryAfter = now + max(1000, 15000) = now + 15000`, not the claimed
min(60000 * 2^(1-1), 3600000) = 60000 milliseconds: at this concrete input the
written retry record carries `retryAfter = 15005` while the claimed formula demands
`60005`. -/
theorem unknownBackoff_flat_delay_counterexample :
    (applyThreadTitle slackProviderEx { setTitle := Except.error "boom" }
      applyParamsEx {}).result.errorClass = some TTErrorClass.unknown ∧
    (∃ st, storeGet (applyThreadTitle slackProviderEx { setTitle := Except.error "boom" }
        applyParamsEx {}).store "slack:C1:7" = some st ∧
      st.status = TTStatus.retry_after ∧
      st.attempts = some 1 ∧
      st.retryAfter = some (applyParamsEx.nowMs + 15000) ∧
      st.retryAfter ≠
        some (applyParamsEx.nowMs + ((min (60000 * 2 ^ (1 - 1)) 3600000 : Nat) : Int))) := by
  decide

/-- C4 (amended): In the session-store manager, an unknown-class failure on the n-th
attempt (n >= 1) schedules the exponential delay: `resolveRetryDelayMs` on class
`unknown` returns min(60000 * 2^(n-1), 3600000) milliseconds and `markRenameResult`
stores `retryAfter = now + that delay` with status `retry_after`.  The in-memory
engine `applyThreadTitle`, however, schedules a flat `retryAfter = now + max(1000,
retryAfterMs ?? 15000)` for an unknown-class failure — 15 seconds by default when the
provider supplies no `retryAfterMs` hook — independent of the attempt counter. -/
theorem unknownBackoff :
    (∀ n : Nat, 1 ≤ n →
      resolveRetryDelayMs TTErrorClass.unknown n = min (60000 * 2 ^ (n - 1)) 3600000) ∧
    (∀ (st : NativeThreadTitleState) (tk title : String) (n : Nat) (now : Int),
      st.threadKey = tk → 1 ≤ n →
      ∃ st2, markRenameResultUpdate (some st) tk title n
          (some TTErrorClass.unknown) now = some st2 ∧
        st2.status = TTStatus.retry_after ∧
        st2.retryAfter = some (now + ((min (60000 * 2 ^ (n - 1)) 3600000 : Nat) : Int))) ∧
    (∀ (prov : Provider) (eff : ProviderEffects) (p : ApplyParams) (store : InMemoryStore)
      (st : ThreadTitleState) (e : JsError),
      eff.setTitle = Except.error e →
      classifyOf prov e = TTErrorClass.unknown →
      prov.retryAfterMs = none →
      st ∈ (applyThreadTitle prov eff p store).writes →
      st.status = TTStatus.retry_after →
      st.retryAfter = some (p.nowMs + 15000)) := by
  refine ⟨?_, ?_, ?_⟩
  · intro n _
    rfl
  · intro st tk title n now hkey _
    have hupd : markRenameResultUpdate (some st) tk title n
        (some TTErrorClass.unknown) now = some { st with
          status := TTStatus.retry_after
          attempts := some n
          lastAttemptAt := some now
          lastErrorClass := some TTErrorClass.unknown
          retryAfter := some (now + ((min (60000 * 2 ^ (n - 1)) 3600000 : Nat) : Int)) } := by
      unfold markRenameResultUpdate
      dsimp only
      rw [if_neg (by simp [hkey])]
      rfl
    exact ⟨_, hupd, rfl, rfl⟩
  · intro prov eff p store st e herr hcls hhook hmem hst
    have hms : retryMsOf prov e = 15000 := by
      unfold retryMsOf
      rw [hhook, hcls]
      rfl
    rcases applyThreadTitle_spec prov eff p store with
      ⟨_, heq⟩ | ⟨_, _, heq⟩ | ⟨tk, _, _, heq⟩ | ⟨tk, _, _, heq⟩ | ⟨tk, _, _, heq⟩ |
      ⟨tk, _, _, heq⟩ | ⟨tk, title, ct, _, _, _, _, _, heq⟩ |
      ⟨tk, title, gct, gates, hder, hstage⟩
    · rw [heq] at hmem; exact absurd hmem (by simp [skipOutcome])
    · rw [heq] at hmem; exact absurd hmem (by simp [skipOutcome])
    · rw [heq] at hmem; exact absurd hmem (by simp [skipOutcome])
    · rw [heq] at hmem; exact absurd hmem (by simp [skipOutcome])
    · rw [heq] at hmem; exact absurd hmem (by simp [skipOutcome])
    · rw [heq] at hmem; exact absurd hmem (by simp [skipOutcome])
    · rw [heq] at hmem
      simp only [List.mem_cons, List.mem_singleton, List.not_mem_nil, or_false] at hmem
      rcases hmem with h | h
      · rw [h] at hst; exact absurd hst (by simp [baseStateOf])
      · rw [h] at hst; exact absurd hst (by simp [existingTitleStateOf])
    · rcases hstage with ⟨hok, heq⟩ | ⟨e2, herr2, hcls2, heq⟩ | ⟨e2, herr2, hcls1, hcls2, heq⟩
      · rw [heq] at hmem
        simp only [List.mem_cons, List.mem_singleton, List.not_mem_nil, or_false] at hmem
        rcases hmem with h | h
        · rw [h] at hst; exact absurd hst (by simp [baseStateOf])
        · rw [h] at hst; exact absurd hst (by simp [appliedStateOf])
      · rw [heq] at hmem
        simp only [List.mem_cons, List.mem_singleton, List.not_mem_nil, or_false] at hmem
        rcases hmem with h | h
        · rw [h] at hst; exact absurd hst (by simp [baseStateOf])
        · rw [h] at hst; exact absurd hst (by simp [failDisabledStateOf])
      · have he2 : e2 = e := by
          rw [herr] at herr2
          exact (Except.error.injEq e2 e).mp herr2.symm
        rw [heq] at hmem
        simp only [List.mem_cons, List.mem_singleton, List.not_mem_nil, or_false] at hmem
        rcases hmem with h | h
        · rw [h] at hst; exact absurd hst (by simp [baseStateOf])
        · rw [h]
          show some (p.nowMs + max 1000 (retryMsOf prov e2)) = some (p.nowMs + 15000)
          rw [he2, hms]
          rfl

def retryUnknownStateEx : ThreadTitleState :=
  { threadKey := "slack:C1:7"
    status := TTStatus.retry_after
    attempts := some 2
    lastProposedTitle := some "A"
    retryAfter := some 1000000000
    lastErrorClass := some TTErrorClass.unknown }

def cooldownStoreEx : InMemoryStore := { entries := [("slack:C1:7", retryUnknownStateEx)] }

/-- C5 counterexample: with a stored state of status `retry_after`, lastErrorClass
`unknown`, `retryAfter` far in the future and `lastProposedTitle = "A"`, a new
`applyThreadTitle` request whose derived title "Fix login bug" differs from "A" is
nevertheless skipped with reason "cooldown" and zero `setTitle` calls — the in-memory
engine has no early-retry carve-out. -/
theorem earlyRetry_cooldown_counterexample :
    deriveConversationTitle applyParamsEx.primaryText applyParamsEx.fallbackText
      applyParamsEx.maxChars = some "Fix login bug" ∧
    retryUnknownStateEx.status = TTStatus.retry_after ∧
    retryUnknownStateEx.lastErrorClass = some TTErrorClass.unknown ∧
    retryUnknownStateEx.lastProposedTitle = some "A" ∧
    retryUnknownStateEx.retryAfter = some 1000000000 ∧
    applyParamsEx.nowMs < 1000000000 ∧
    some "Fix login bug" ≠ retryUnknownStateEx.lastProposedTitle ∧
    storeGet cooldownStoreEx "slack:C1:7" = some retryUnknownStateEx ∧
    (applyThreadTitle slackProviderEx {} applyParamsEx cooldownStoreEx).result.outcome =
      "skipped" ∧
    (applyThreadTitle slackProviderEx {} applyParamsEx cooldownStoreEx).result.reason =
      "cooldown" ∧
    (applyThreadTitle slackProviderEx {} applyParamsEx cooldownStoreEx).setTitleCalls = 0 := by
  decide

/-- C5 (amended): The early-retry carve-out lives in the session-store manager's
`markRenameAttempt`: with stored status `retry_after`, lastErrorClass `unknown` and
`retryAfter` still in the future, a differing proposed title proceeds to a new attempt
(shouldApply = true), while an equal title or a non-`unknown` lastErrorClass is
blocked until `now >= retryAfter` (after which it proceeds).  The in-memory engine
`applyThreadTitle` instead skips with reason "cooldown" whenever `retryAfter > now`,
regardless of the proposed title. -/
theorem earlyRetry_carveout :
    (∀ (st : NativeThreadTitleState) (sessionKey tk title : String) (now ra : Int),
      st.threadKey = tk → st.status = TTStatus.retry_after →
      st.lastErrorClass = some TTErrorClass.unknown →
      st.retryAfter = some ra → ra ≠ 0 → now < ra →
      st.lastProposedTitle ≠ some title →
      (markRenameAttempt (some sessionKey) (some st) tk title now).1.shouldApply = true) ∧
    (∀ (st : NativeThreadTitleState) (sessionKey tk title : String) (now ra : Int),
      st.threadKey = tk → st.status = TTStatus.retry_after →
      st.retryAfter = some ra → ra ≠ 0 → now < ra →
      (st.lastProposedTitle = some title ∨ st.lastErrorClass ≠ some TTErrorClass.unknown) →
      (markRenameAttempt (some sessionKey) (some st) tk title now).1.shouldApply = false) ∧
    (∀ (st : NativeThreadTitleState) (sessionKey tk title : String) (now ra : Int),
      st.threadKey = tk → st.status = TTStatus.retry_after →
      st.retryAfter = some ra → ra ≤ now →
      (markRenameAttempt (some sessionKey) (some st) tk title now).1.shouldApply = true) ∧
    (∀ (prov : Provider) (eff : ProviderEffects) (p : ApplyParams) (store : InMemoryStore)
      (tk : String) (st : ThreadTitleState) (ra : Int),
      channelOk prov p.target = true →
      resolvedThreadKey prov p.target = some tk →
      storeGet store tk = some st →
      st.status = TTStatus.retry_after →
      st.retryAfter = some ra → p.nowMs < ra →
      (applyThreadTitle prov eff p store).result.outcome = "skipped" ∧
      (applyThreadTitle prov eff p store).result.reason = "cooldown" ∧
      (applyThreadTitle prov eff p store).setTitleCalls = 0) := by
  refine ⟨?_, ?_, ?_, ?_⟩
  · intro st sessionKey tk title now ra hkey hst hcls hra hra0 hnow htitle
    unfold markRenameAttempt updateSessionStoreEntry markRenameAttemptUpdate
    simp [hkey, hst, hcls, hra, hra0, hnow, htitle, retryAfterActive]
  · intro st sessionKey tk title now ra hkey hst hra hra0 hnow hblock
    unfold markRenameAttempt updateSessionStoreEntry markRenameAttemptUpdate
    rcases hblock with h | h
    · simp [hkey, hst, hra, hra0, hnow, h, retryAfterActive]
    · simp [hkey, hst, hra, hra0, hnow, h, retryAfterActive]
  · intro st sessionKey tk title now ra hkey hst hra hnow
    unfold markRenameAttempt updateSessionStoreEntry markRenameAttemptUpdate
    have : retryAfterActive st now = false := by
      unfold retryAfterActive
      rw [hra]
      simp
      intro _
      omega
    simp [hkey, hst, this]
  · intro prov eff p store tk st ra hch hrtk hget hst hra hnow
    rw [applyThreadTitle_cooldown_skip prov eff p store tk st ra hch hrtk hget hst hra hnow]
    exact ⟨rfl, rfl, rfl⟩

theorem titleCandidateFinish_eq_self (m : Nat) (t : String) (hlen : ¬ (m < t.length))
    (hstrip : stripTrailingPunctuation t = t) (h3 : ¬ (t.length < 3)) :
    titleCandidateFinish m t = some t := by
  unfold titleCandidateFinish
  dsimp only
  rw [if_neg hlen, hstrip, if_neg h3]

theorem titleCandidateCore_of_placeholder_only (s : String)
    (h : stripMediaPlaceholderTokens (preCleanTitle s) = "") :
    titleCandidateCore s = none := by
  unfold titleCandidateCore
  split
  · rfl
  · dsimp only
    split
    · rfl
    · split
      · rfl
      · split
        · rfl
        · split
          · rfl
          · rename_i hcond
            exfalso
            apply hcond
            rw [h]
            decide

set_option maxHeartbeats 1600000 in
/-- C7: Placeholder stripping in the deterministic extractor.  (i) Primary text
"Please review [Slack file: report.pdf]" with no fallback and maxChars >= 13 yields
"Please review".  (ii) Any primary text consisting only of placeholder tokens (its
normalized form strips to the empty string), with no fallback, yields no candidate. -/
theorem deriveConversationTitle_placeholder_stripping :
    (∀ mc : Nat, 13 ≤ mc →
      deriveConversationTitle (some "Please review [Slack file: report.pdf]") none mc =
        some "Please review") ∧
    (∀ (s : String) (mc : Nat),
      stripMediaPlaceholderTokens (preCleanTitle s) = "" →
      deriveConversationTitle (some s) none mc = none) := by
  constructor
  · intro mc hmc
    have h1 : titleCandidate (max 1 mc) (some "Please review [Slack file: report.pdf]") =
        some "Please review" := by
      unfold titleCandidate
      dsimp only
      rw [show titleCandidateCore "Please review [Slack file: report.pdf]" =
        some "Please review" from by decide]
      show titleCandidateFinish (max 1 mc) "Please review" = some "Please review"
      apply titleCandidateFinish_eq_self
      · rw [show ("Please review" : String).length = 13 from by decide]
        omega
      · decide
      · decide
    unfold deriveConversationTitle
    dsimp only
    rw [h1]
  · intro s mc h
    have h1 : titleCandidate (max 1 mc) (some s) = none := by
      unfold titleCandidate
      dsimp only
      rw [titleCandidateCore_of_placeholder_only s h]
      rfl
    unfold deriveConversationTitle
    dsimp only
    rw [h1]
    rfl

set_option maxHeartbeats 1600000 in
/-- C8: Slash-command rejection with fallback ordering.  "/status" with no fallback
yields no candidate for any maxChars; "/status" with fallback "Investigate login bug"
and maxChars >= 21 yields "Investigate login bug" (primary tried first, rejected
primary falls through to the fallback). -/
theorem deriveConversationTitle_slash_fallback :
    (∀ mc : Nat, deriveConversationTitle (some "/status") none mc = none) ∧
    (∀ mc : Nat, 21 ≤ mc →
      deriveConversationTitle (some "/status") (some "Investigate login bug") mc =
        some "Investigate login bug") := by
  have hcore : ∀ m : Nat, titleCandidate m (some "/status") = none := by
    intro m
    unfold titleCandidate
    dsimp only
    rw [show titleCandidateCore "/status" = none from by decide]
    rfl
  constructor
  · intro mc
    unfold deriveConversationTitle
    dsimp only
    rw [hcore]
    rfl
  · intro mc hmc
    have h2 : titleCandidate (max 1 mc) (some "Investigate login bug") =
        some "Investigate login bug" := by
      unfold titleCandidate
      dsimp only
      rw [show titleCandidateCore "Investigate login bug" =
        some "Investigate login bug" from by decide]
      show titleCandidateFinish (max 1 mc) "Investigate login bug" =
        some "Investigate login bug"
      apply titleCandidateFinish_eq_self
      · rw [show ("Investigate login bug" : String).length = 21 from by decide]
        omega
      · decide
      · decide
    unfold deriveConversationTitle
    dsimp only
    rw [hcore, h2]

/-- C9: The LLM title generator never throws.  For every input and every outcome of
the underlying effectful calls (missing model reference, unsupported provider, missing
API key, non-OK HTTP response, network error, timeout abort, unparseable output —
modelled as `Except` results of the fetch / temp-dir / agent-run steps), both
revisions of `generateThreadTitleViaLLM` resolve to `Except.ok` of an optional
sanitized title, never to a propagated error. -/
theorem generateThreadTitleViaLLM_never_throws (p : GenParams) (effNet : GenEffectsNet)
    (effRun : GenEffectsRun) :
    (∃ t, generateThreadTitleViaLLM p effNet = Except.ok t) ∧
    (∃ t, generateThreadTitleViaLLMEmbedded p effRun = Except.ok t) := by
  constructor
  · unfold generateThreadTitleViaLLM
    dsimp only
    repeat' split
    all_goals exact ⟨_, rfl⟩
  · unfold generateThreadTitleViaLLMEmbedded
    dsimp only
    repeat' split
    all_goals exact ⟨_, rfl⟩

def permProviderEx : Provider :=
  { channel := "slack", classifyError := some (fun _ => TTErrorClass.permission) }

def disabledStateEx : ThreadTitleState :=
  { threadKey := "slack:C1:7", status := TTStatus.disabled }

def disabledStoreEx : InMemoryStore := { entries := [("slack:C1:7", disabledStateEx)] }

theorem applyThreadTitle_permission_disables_witness :
    (∃ tk, (applyThreadTitle permProviderEx { setTitle := Except.error "missing_scope" }
        applyParamsEx {}).result.threadKey = some tk ∧
      (storeGet (applyThreadTitle permProviderEx { setTitle := Except.error "missing_scope" }
          applyParamsEx {}).store tk).map (fun s => s.status) = some TTStatus.disabled) ∧
    ((applyThreadTitle permProviderEx {} applyParamsEx disabledStoreEx).result.outcome =
        "skipped" ∧
      (applyThreadTitle permProviderEx {} applyParamsEx disabledStoreEx).result.reason =
        "disabled" ∧
      (applyThreadTitle permProviderEx {} applyParamsEx disabledStoreEx).setTitleCalls = 0 ∧
      (applyThreadTitle permProviderEx {} applyParamsEx disabledStoreEx).getCurrentTitleCalls
        = 0) :=
  ⟨applyThreadTitle_permission_disables.1 permProviderEx
      { setTitle := Except.error "missing_scope" } applyParamsEx {}
      (by decide) (by decide) (by decide),
    applyThreadTitle_permission_disables.2 permProviderEx {} applyParamsEx disabledStoreEx
      "slack:C1:7" disabledStateEx (by decide) (by decide) (by decide) (by decide)⟩

def nativeStateEx : NativeThreadTitleState :=
  { threadKey := "slack:acct:C9:42", status := TTStatus.pending, attempts := some 2 }

theorem notFound_backoff_witness :
    (∃ st2, markRenameResultUpdate (some nativeStateEx) "slack:acct:C9:42" "Roadmap" 3
        (some TTErrorClass.not_found) 50 = some st2 ∧
      st2.status = TTStatus.retry_after ∧
      st2.retryAfter = some ((50 : Int) + ((30 * 60000 : Nat) : Int))) ∧
    (∃ tk, (applyThreadTitle notFoundProviderEx
        { setTitle := Except.error "thread not found" } applyParamsEx {}).result.threadKey =
          some tk ∧
      (storeGet (applyThreadTitle notFoundProviderEx
          { setTitle := Except.error "thread not found" } applyParamsEx {}).store tk).map
        (fun s => s.status) = some TTStatus.disabled) :=
  ⟨notFound_backoff.2.1 nativeStateEx "slack:acct:C9:42" "Roadmap" 3 50 (by decide),
    notFound_backoff.2.2 notFoundProviderEx { setTitle := Except.error "thread not found" }
      applyParamsEx {} (by decide) (by decide) (by decide)⟩

def unknownRetryStateEx : ThreadTitleState :=
  { threadKey := "slack:C1:7"
    status := TTStatus.retry_after
    attempts := some 1
    lastAttemptAt := some 5
    lastProposedTitle := some "Fix login bug"
    retryAfter := some 15005
    lastErrorClass := some TTErrorClass.unknown }

theorem unknownBackoff_witness :
    ((resolveRetryDelayMs TTErrorClass.unknown 3 = min (60000 * 2 ^ (3 - 1)) 3600000) ∧
    (∃ st2, markRenameResultUpdate (some nativeStateEx) "slack:acct:C9:42" "Roadmap" 3
        (some TTErrorClass.unknown) 7 = some st2 ∧
      st2.status = TTStatus.retry_after ∧
      st2.retryAfter = some ((7 : Int) + ((min (60000 * 2 ^ (3 - 1)) 3600000 : Nat) : Int)))) ∧
    unknownRetryStateEx.retryAfter = some (applyParamsEx.nowMs + 15000) :=
  ⟨⟨unknownBackoff.1 3 (by decide),
    unknownBackoff.2.1 nativeStateEx "slack:acct:C9:42" "Roadmap" 3 7
      (by decide) (by decide)⟩,
    unknownBackoff.2.2 slackProviderEx { setTitle := Except.error "boom" } applyParamsEx {}
      unknownRetryStateEx "boom" (by decide) (by decide) rfl (by decide) (by decide)⟩

theorem earlyRetry_carveout_witness :
    ((markRenameAttempt (some "sess") (some retryUnknownStateEx) "slack:C1:7" "Fix login bug"
        5).1.shouldApply = true) ∧
    ((markRenameAttempt (some "sess") (some retryUnknownStateEx) "slack:C1:7" "A"
        5).1.shouldApply = false) ∧
    ((applyThreadTitle slackProviderEx {} applyParamsEx cooldownStoreEx).result.outcome =
        "skipped" ∧
      (applyThreadTitle slackProviderEx {} applyParamsEx cooldownStoreEx).result.reason =
        "cooldown" ∧
      (applyThreadTitle slackProviderEx {} applyParamsEx cooldownStoreEx).setTitleCalls = 0) :=
  ⟨earlyRetry_carveout.1 retryUnknownStateEx "sess" "slack:C1:7" "Fix login bug" 5 1000000000
      (by decide) (by decide) (by decide) (by decide) (by decide) (by decide) (by decide),
    earlyRetry_carveout.2.1 retryUnknownStateEx "sess" "slack:C1:7" "A" 5 1000000000
      (by decide) (by decide) (by decide) (by decide) (by decide) (Or.inl (by decide)),
    earlyRetry_carveout.2.2.2 slackProviderEx {} applyParamsEx cooldownStoreEx "slack:C1:7"
      retryUnknownStateEx 1000000000 (by decide) (by decide) (by decide) (by decide)
      (by decide) (by decide)⟩

def getTitleProviderEx : Provider := { channel := "slack", hasGetCurrentTitle := true }

def overwriteSettingsEx : ThreadTitleLlmSettings :=
  { strategy := ThreadTitleStrategy.deterministic
    timeoutMs := 12000
    allowOverwriteCurrentTitle := true }

def overwriteEnvEx : String → Option String := fun k =>
  if k = "OPENCLAW_THREAD_TITLE_OVERWRITE_EXISTING" then some "true" else none

def currentTitleEffEx : ProviderEffects :=
  { getCurrentTitle := Except.ok (some "Release planning") }

theorem applyThreadTitle_existing_title_precheck_witness :
    ((applyThreadTitle getTitleProviderEx currentTitleEffEx applyParamsEx {}).result.outcome = "skipped" ∧
      (applyThreadTitle getTitleProviderEx currentTitleEffEx applyParamsEx {}).result.reason =
        "existing_title_present" ∧
      (applyThreadTitle getTitleProviderEx currentTitleEffEx applyParamsEx {}).setTitleCalls = 0 ∧
      ∃ st, storeGet (applyThreadTitle getTitleProviderEx currentTitleEffEx applyParamsEx {}).store "slack:C1:7" = some st ∧
        st.status = TTStatus.disabled ∧ st.appliedTitle = some "Release planning") ∧
    ((resolveThreadTitleLlmSettings none overwriteEnvEx).allowOverwriteCurrentTitle = true) ∧
    ((applyThreadTitleWithSettings overwriteSettingsEx getTitleProviderEx
        currentTitleEffEx applyParamsEx {}).result.outcome = "applied" ∧
      (applyThreadTitleWithSettings overwriteSettingsEx getTitleProviderEx
        currentTitleEffEx applyParamsEx {}).result.title = some "Fix login bug" ∧
      (applyThreadTitleWithSettings overwriteSettingsEx getTitleProviderEx
        currentTitleEffEx applyParamsEx {}).setTitleCalls = 1) :=
  ⟨applyThreadTitle_existing_title_precheck.1 getTitleProviderEx
      currentTitleEffEx applyParamsEx {}
      "slack:C1:7" "Fix login bug" "Release planning" (by decide) (by decide) (by decide)
      (by decide) (by decide) (by decide) (by decide) (by decide) (by decide) (by decide)
      (by decide),
    applyThreadTitle_existing_title_precheck.2.1 none overwriteEnvEx
      (Or.inr (Or.inl (by decide))),
    applyThreadTitle_existing_title_precheck.2.2 overwriteSettingsEx getTitleProviderEx
      currentTitleEffEx applyParamsEx {}
      "slack:C1:7" "Fix login bug" (by decide) (by decide) (by decide) (by decide)
      (by decide) (by decide) (by decide) (by decide)⟩

set_option maxHeartbeats 1600000 in
theorem deriveConversationTitle_placeholder_stripping_witness :
    (deriveConversationTitle (some "Please review [Slack file: report.pdf]") none 80 =
      some "Please review") ∧
    (deriveConversationTitle (some "[Slack file: report.pdf] [Slack file: chart.png]")
      none 80 = none) :=
  ⟨deriveConversationTitle_placeholder_stripping.1 80 (by decide),
    deriveConversationTitle_placeholder_stripping.2
      "[Slack file: report.pdf] [Slack file: chart.png]" 80 (by decide)⟩

set_option maxHeartbeats 1600000 in
theorem deriveConversationTitle_slash_fallback_witness :
    (deriveConversationTitle (some "/status") none 80 = none) ∧
    (deriveConversationTitle (some "/status") (some "Investigate login bug") 80 =
      some "Investigate login bug") :=
  ⟨deriveConversationTitle_slash_fallback.1 80,
    deriveConversationTitle_slash_fallback.2 80 (by decide)⟩

def negRetryProviderEx : Provider :=
  { channel := "slack", retryAfterMs := some (fun _ _ => some (-500)) }

def retryWrittenStateEx : ThreadTitleState :=
  { threadKey := "slack:C1:7"
    status := TTStatus.retry_after
    attempts := some 1
    lastAttemptAt := some 5
    lastProposedTitle := some "Fix login bug"
    retryAfter := some 1005
    lastErrorClass := some TTErrorClass.unknown }

theorem applyThreadTitle_retryAfter_future_witness :
    (retryWrittenStateEx ∈ (applyThreadTitle negRetryProviderEx
        { setTitle := Except.error "boom" } applyParamsEx {}).writes ∧
      retryWrittenStateEx.status = TTStatus.retry_after) ∧
    ((∃ e, ({ setTitle := Except.error "boom" } : ProviderEffects).setTitle =
        Except.error e ∧
      retryWrittenStateEx.retryAfter =
        some (applyParamsEx.nowMs + max 1000 (retryMsOf negRetryProviderEx e))) ∧
    (∀ ra, retryWrittenStateEx.retryAfter = some ra → applyParamsEx.nowMs + 1000 ≤ ra)) :=
  ⟨⟨by decide, by decide⟩,
    applyThreadTitle_retryAfter_future negRetryProviderEx { setTitle := Except.error "boom" }
      applyParamsEx {} retryWrittenStateEx (by decide) (by decide)⟩
